import Mathlib

/-!
Verification development for the newrest_bot_2025 recruitment/attendance bot.

Shallow embedding of the bot's core logic, translated from the Python
sources under `src/`:

* `services/rate_limiter.py`     → namespace `RateLimiter`
* `services/connection_manager.py` → namespace `ConnectionManager`
* `services/google_sheets.py`    → namespace `GoogleSheets`
* `services/location_service.py` → namespace `LocationService`
* `handlers/reminder_system.py`  → namespace `ReminderSystem`
* `handlers/registration_flow.py` (with the routing of
  `handlers/message_handler.py`) → namespace `RegistrationFlow`
* `handlers/admin_evaluation.py` → namespace `AdminEvaluation`

Spreadsheet state is modelled as lists of rows/columns of strings, time as
natural-number seconds, and Python string operations by explicit functions
over `Char` lists so that every definition evaluates by `decide`/`rfl`.
The haversine validator is modelled over the reals.
-/

/-! ### Python string helpers

Python's `str.strip`, `'-' in s`, `s.endswith('-')`, `s.replace('-', '')`
and `s.startswith(p)` over the UTF-8 character sequence of a string. -/

/-- Whitespace stripped by Python's `str.strip()` (the characters that occur
in the modelled sheet data). -/
def pyIsSpace (c : Char) : Bool :=
  c == ' ' || c == '\t' || c == '\n' || c == '\r'

/-- Python `s.strip()`. -/
def pyStrip (s : String) : String :=
  String.mk (((s.data.dropWhile pyIsSpace).reverse.dropWhile pyIsSpace).reverse)

/-- Python `c in s` for a single character `c`. -/
def strContains (s : String) (c : Char) : Bool :=
  s.data.any (fun x => x == c)

/-- Python `s.endswith(c)` for a single character `c`. -/
def strEndsWithChar (s : String) (c : Char) : Bool :=
  s.data.getLast? == some c

/-- Python `s.replace('-', '')`: every dash is removed. -/
def removeDashes (s : String) : String :=
  String.mk (s.data.filter (fun c => !(c == '-')))

/-- Python `s.startswith(p)`. -/
def strStartsWith (s p : String) : Bool :=
  p.data.isPrefixOf s.data

/-! ### Rate limiter (`services/rate_limiter.py`)

`RateLimiter.can_make_request` first drops recorded timestamps older than
60 seconds, then refuses when the remaining count has reached the ceiling;
`record_request` appends the current time.  Timestamps are seconds as `Nat`. -/

namespace RateLimiter

/-- `can_make_request` (lines 16-27): prune the sliding window, then return
whether a call may proceed together with the pruned request list (the only
mutation the check performs). -/
def can_make_request (maxRequests : Nat) (now : Nat) (requests : List Nat) :
    Bool × List Nat :=
  let requests := requests.filter (fun reqTime => now - reqTime < 60)
  if maxRequests ≤ requests.length then (false, requests)
  else (true, requests)

/-- `record_request` (lines 29-33): append the current timestamp. -/
def record_request (now : Nat) (requests : List Nat) : List Nat :=
  requests ++ [now]

end RateLimiter

/-! ### Quota retry wrapper (`services/google_sheets.py`, lines 24-64)

The decorated callable is modelled as a map from the attempt index to that
call's outcome: success, an `HttpError` with a status code, or any other
exception. -/

namespace GoogleSheets

/-- One underlying call's outcome. -/
inductive CallOutcome (α : Type) where
  | success (v : α)
  | httpError (status : Nat)
  | otherError
deriving DecidableEq

/-- What the wrapper does in the end: return a value, re-raise an error, or
fall off the loop returning `None`. -/
inductive RetryOutcome (α : Type) where
  | returned (v : α)
  | raised (e : CallOutcome α)
  | noneReturned
deriving DecidableEq

/-- The wrapper's observable run: its outcome, how many underlying calls were
made, and the total seconds slept in `time.sleep(delay)` backoffs. -/
structure RetryTrace (α : Type) where
  outcome : RetryOutcome α
  calls : Nat
  slept : Nat
deriving DecidableEq

/-- The `for attempt in range(max_retries)` loop of `retry_on_quota_error`:
on an `HttpError` with status 429 and a later attempt still available, sleep
`delay` and continue; otherwise re-raise; a non-`HttpError` re-raises at
once.  `fuel` counts the remaining loop iterations. -/
def retryAux (f : Nat → CallOutcome α) (maxRetries delay attempt : Nat) :
    Nat → RetryTrace α
  | 0 => ⟨.noneReturned, 0, 0⟩
  | fuel + 1 =>
    match f attempt with
    | .success v => ⟨.returned v, 1, 0⟩
    | .httpError status =>
      if status = 429 ∧ attempt < maxRetries - 1 then
        let rest := retryAux f maxRetries delay (attempt + 1) fuel
        ⟨rest.outcome, rest.calls + 1, rest.slept + delay⟩
      else ⟨.raised (.httpError status), 1, 0⟩
    | .otherError => ⟨.raised .otherError, 1, 0⟩

/-- `retry_on_quota_error(max_retries, delay)` applied to a callable. -/
def retry_on_quota_error (f : Nat → CallOutcome α) (maxRetries delay : Nat) :
    RetryTrace α :=
  retryAux f maxRetries delay 0 maxRetries

end GoogleSheets

/-! ### Response cache (`services/connection_manager.py`) -/

namespace ConnectionManager

/-- One entry of the `ConnectionManager._cache` dict: key, data and the
timestamp recorded by `set_cached_data`. -/
structure CacheEntry where
  key : String
  data : String
  timestamp : Nat
deriving DecidableEq

/-- `self._cache_ttl = 30`. -/
def CACHE_TTL : Nat := 30

/-- `get_cached_data` (lines 50-62): a fresh entry is returned, an expired
one is deleted, a missing key yields nothing. -/
def get_cached_data (now : Nat) (cache : List CacheEntry) (key : String) :
    Option String × List CacheEntry :=
  match cache.find? (fun e => e.key == key) with
  | some e =>
    if now - e.timestamp < CACHE_TTL then (some e.data, cache)
    else (none, cache.filter (fun x => !(x.key == key)))
  | none => (none, cache)

/-- `set_cached_data` (lines 64-68): dict assignment, replacing any entry
with the same key. -/
def set_cached_data (now : Nat) (cache : List CacheEntry) (key : String)
    (data : String) : List CacheEntry :=
  ⟨key, data, now⟩ :: cache.filter (fun e => !(e.key == key))

/-- `clear_cache` (lines 70-74). -/
def clear_cache (_cache : List CacheEntry) : List CacheEntry := []

end ConnectionManager

/-! ### `check_user_status` (`services/google_sheets.py`, lines 157-224)

The WORKERS sheet's two column reads can each raise (any exception in the
function's `try` body produces the `'ERROR'` return), the connection
initialisation can fail, and the rate limiter can refuse the call. -/

namespace GoogleSheets

/-- A `col_values` read: the column's cells, or an exception. -/
inductive ReadResult where
  | ok (vals : List String)
  | raise
deriving DecidableEq

/-- The WORKERS sheet as `check_user_status` reads it: column B (IDs) and
column C (statuses). -/
structure WorkersSheet where
  idCol : ReadResult
  statusCol : ReadResult
deriving DecidableEq

/-- The state one execution of `check_user_status` runs against. -/
structure CheckEnv where
  now : Nat
  cache : List ConnectionManager.CacheEntry
  rateOk : Bool
  init : Option WorkersSheet
deriving DecidableEq

/-- `status.strip() if status else 'UNKNOWN'` (line 210). -/
def stripStatus (raw : String) : String :=
  if raw == "" then "UNKNOWN" else pyStrip raw

/-- The search loop (lines 205-211): `ids` is `id_column[1:]`, `j` the
0-based position within it; a match at position `j` reads
`status_column[j+1]` (Python's `status_column[i-1]` with `i = j+2`),
defaulting to `'UNKNOWN'` when out of range. -/
def searchStatusAux (userId : String) (ids : List String)
    (statusCol : List String) (j : Nat) : String :=
  match ids with
  | [] => "NOT_FOUND"
  | uidInSheet :: rest =>
    if uidInSheet == userId then stripStatus ((statusCol.get? (j + 1)).getD "UNKNOWN")
    else searchStatusAux userId rest statusCol (j + 1)

/-- `check_user_status`: cache lookup, rate-limiter gate, connection
initialisation, the two column reads and the search; the result is cached
only after a successful read.  (`rate_limiter.record_request`, which only
appends a timestamp to the limiter's own window, is not threaded through
this state.) -/
def check_user_status (env : CheckEnv) (userId : String) :
    String × List ConnectionManager.CacheEntry :=
  let cacheKey := "user_status_" ++ userId
  match ConnectionManager.get_cached_data env.now env.cache cacheKey with
  | (some cachedStatus, cache1) => (cachedStatus, cache1)
  | (none, cache1) =>
    if !env.rateOk then ("ERROR", cache1)
    else
      match env.init with
      | none => ("ERROR", cache1)
      | some sheet =>
        match sheet.idCol, sheet.statusCol with
        | .ok idColumn, .ok statusColumn =>
          let status := searchStatusAux userId (idColumn.drop 1) statusColumn 0
          (status, ConnectionManager.set_cached_data env.now cache1 cacheKey status)
        | _, _ => ("ERROR", cache1)

end GoogleSheets

/-! ### Location service (`services/location_service.py`)

`calculate_distance` and `validate_work_location` are modelled over the
reals; `LocationService.validate_location` — the function the day-of
check-in actually calls — is the source's testing stub that returns `True`
for every user without reading any position. -/

namespace LocationService

/-- `WORK_LOCATION['latitude']`. -/
noncomputable def WORK_LATITUDE : ℝ := 37.909416

/-- `WORK_LOCATION['longitude']`. -/
noncomputable def WORK_LONGITUDE : ℝ := 23.871109

/-- `WORK_LOCATION['radius_meters']`. -/
noncomputable def RADIUS_METERS : ℝ := 500

/-- `math.radians`. -/
noncomputable def radians (x : ℝ) : ℝ := x * (Real.pi / 180)

/-- `calculate_distance` (lines 68-104): the haversine formula with Earth
radius 6371000 m. -/
noncomputable def calculate_distance (lat1 lon1 lat2 lon2 : ℝ) : ℝ :=
  let R : ℝ := 6371000
  let lat1_rad := radians lat1
  let lon1_rad := radians lon1
  let lat2_rad := radians lat2
  let lon2_rad := radians lon2
  let dlat := lat2_rad - lat1_rad
  let dlon := lon2_rad - lon1_rad
  let a := Real.sin (dlat / 2) ^ 2 +
    Real.cos lat1_rad * Real.cos lat2_rad * Real.sin (dlon / 2) ^ 2
  let c := 2 * Real.arcsin (Real.sqrt a)
  R * c

open Classical in
/-- `validate_work_location` (lines 20-66) on a well-formed coordinate pair:
`distance <= WORK_LOCATION['radius_meters']`. -/
noncomputable def validate_work_location (lat lon : ℝ) : Bool :=
  if calculate_distance WORK_LATITUDE WORK_LONGITUDE lat lon ≤ RADIUS_METERS then true
  else false

/-- `LocationService.validate_location` (lines 146-160): the source returns
`True` for every user ("ALWAYS TRUE (testing mode)"); it never receives or
reads a position. -/
def validate_location (_userId : Nat) : Bool := true

/-- The latitude `d` metres due north of the work site (per the haversine
model): the degree displacement whose radian measure is `d / 6371000`. -/
noncomputable def displacedLatitude (d : ℝ) : ℝ :=
  WORK_LATITUDE + (d / 6371000) * (180 / Real.pi)

end LocationService

/-! ### Reminder system (`handlers/reminder_system.py`)

The REGISTRATION sheet is modelled as its header row plus data rows,
restricted to the columns the scan reads (A = LANGUAGE, B = user id,
R = COURSE_DATE, S = PRE_COURSE_REMINDER, U = FIRST_REMINDER_SENT); the
WORKERS sheet likewise (B = id, C = status).  An empty string models an
empty cell (Python falsy).  `col_values` models gspread's `col_values`,
which returns a column only up to its last non-empty cell — trailing empty
cells are truncated — which is why the source guards every column access
with `i < len(column)` (lines 345, 357-360). -/

namespace ReminderSystem

/-- One data row of the REGISTRATION sheet, restricted to the columns
`get_users_for_reminder` reads (A, B, R, S, U). -/
structure RegRow where
  language : String
  userId : String
  courseDate : String
  preCourseReminder : String
  firstReminderSent : String
deriving DecidableEq

/-- The REGISTRATION sheet: its header row and its data rows (sheet rows
2, 3, ...). -/
structure RegSheet where
  headers : RegRow
  rows : List RegRow
deriving DecidableEq

/-- One data row of the WORKERS sheet (columns B and C). -/
structure WorkerRow where
  id : String
  status : String
deriving DecidableEq

/-- The WORKERS sheet: its header row and its data rows. -/
structure WorkersTable where
  headers : WorkerRow
  rows : List WorkerRow
deriving DecidableEq

/-- gspread's column truncation: `col_values` omits every trailing empty
cell of the column. -/
def dropTrailingEmpty : List String → List String
  | [] => []
  | c :: rest =>
    match dropTrailingEmpty rest with
    | [] => if c == "" then [] else [c]
    | r => c :: r

/-- `registration_sheet.col_values(c)`: the header cell followed by the
data cells of the column, truncated after the last non-empty cell. -/
def col_values (f : RegRow → String) (sheet : RegSheet) : List String :=
  dropTrailingEmpty (f sheet.headers :: sheet.rows.map f)

/-- `workers_sheet.col_values(c)`. -/
def workers_col_values (f : WorkerRow → String) (ws : WorkersTable) :
    List String :=
  dropTrailingEmpty (f ws.headers :: ws.rows.map f)

/-- The `user_status_map` lookup (lines 344-350, 367): for
`i in range(1, len(workers_id_col))` with `i < len(workers_status_col)`,
each row with a nonempty id and status cell fills the dict in order, a
later row overwriting an earlier one with the same id — so `.get` returns
the status cell at the last qualifying index whose id cell matches. -/
def user_status_map_get (ws : WorkersTable) (userId : String) :
    Option String :=
  let workers_id_col := workers_col_values (fun w => w.id) ws
  let workers_status_col := workers_col_values (fun w => w.status) ws
  (((List.range' 1 (workers_id_col.length - 1)).filter (fun i =>
      decide (i < workers_status_col.length) &&
      !(workers_id_col.getD i "" == "") &&
      !(workers_status_col.getD i "" == ""))).reverse.find?
    (fun i => workers_id_col.getD i "" == userId)).map
    (fun i => workers_status_col.getD i "")

/-- One entry of the scan's `users_to_remind` list (the dict appended at
lines 372-376). -/
structure ReminderTarget where
  user_id : String
  course_date : String
  language : String
deriving DecidableEq

/-- The body of the scan loop (lines 356-376) at index `i` into the
truncated columns: first the `i < len(column)` bounds guards of lines
357-360, then the eligibility condition of lines 369-371; the appended
entry defaults the language to `'gr'` when the cell is empty. -/
def scan_row (sheet : RegSheet) (workers : WorkersTable)
    (targetDate : String) (i : Nat) : Option ReminderTarget :=
  let pre_course_reminder_col := col_values (fun r => r.preCourseReminder) sheet
  let first_reminder_sent_col := col_values (fun r => r.firstReminderSent) sheet
  let course_date_col := col_values (fun r => r.courseDate) sheet
  let language_col := col_values (fun r => r.language) sheet
  if i < pre_course_reminder_col.length ∧
      i < first_reminder_sent_col.length ∧
      i < course_date_col.length ∧ i < language_col.length then
    let user_id := (col_values (fun r => r.userId) sheet).getD i ""
    let pre_course_reminder := pre_course_reminder_col.getD i ""
    let first_reminder_sent := first_reminder_sent_col.getD i ""
    let course_date := course_date_col.getD i ""
    let language := language_col.getD i ""
    let user_status := user_status_map_get workers user_id
    if pre_course_reminder == targetDate ∧ first_reminder_sent == "" ∧
        user_status ≠ some "REJECTED" ∧ user_status ≠ some "CANCELLED" then
      some ⟨user_id, course_date, if language == "" then "gr" else language⟩
    else none
  else none

/-- `get_users_for_reminder` (lines 320-391): read the five REGISTRATION
columns and the two WORKERS columns, then scan
`for i in range(1, len(user_id_col))`. -/
def get_users_for_reminder (sheet : RegSheet) (workers : WorkersTable)
    (targetDate : String) : List ReminderTarget :=
  (List.range' 1
    ((col_values (fun r => r.userId) sheet).length - 1)).filterMap
    (scan_row sheet workers targetDate)

/-- Writing `'SENT'` into the FIRST_REMINDER_SENT cell of the data row at
(0-based) index `k`. -/
def setSentAt : List RegRow → Nat → List RegRow
  | [], _ => []
  | r :: rest, 0 => { r with firstReminderSent := "SENT" } :: rest
  | r :: rest, Nat.succ k => r :: setSentAt rest k

/-- `_mark_reminder_sent(user_id, 'FIRST_REMINDER_SENT')` (lines 719-753):
re-read column B (truncated), find the first index `i ≥ 1` whose cell
matches the user id, and `update_cell(i + 1, 21, 'SENT')` — i.e. write in
the data row at index `i - 1`; if no cell matches, write nothing. -/
def mark_first_reminder_sent (sheet : RegSheet) (userId : String) :
    RegSheet :=
  let user_id_col := col_values (fun r => r.userId) sheet
  match (List.range' 1 (user_id_col.length - 1)).find?
      (fun i => user_id_col.getD i "" == userId) with
  | some i => { sheet with rows := setSentAt sheet.rows (i - 1) }
  | none => sheet

/-- `send_pre_course_reminder` (lines 22-59): the message goes out, then
the first-reminder marker is written. -/
def send_pre_course_reminder (sheet : RegSheet) (userId : String) :
    RegSheet :=
  mark_first_reminder_sent sheet userId

/-- One pre-day dispatch (`send_daily_reminders`, lines 655-685): scan
once, then send to each found user in order.  Returns the user ids
messaged and the final sheet. -/
def run_pre_day_scan (sheet : RegSheet) (workers : WorkersTable)
    (targetDate : String) : List String × RegSheet :=
  let users := get_users_for_reminder sheet workers targetDate
  (users.map (fun u => u.user_id),
   users.foldl (fun s u => send_pre_course_reminder s u.user_id) sheet)

/-- `_update_worker_status` (lines 215-243) on the WORKERS sheet's columns B
and C: find the user's row and overwrite the status cell.  The function
touches no cache. -/
def update_worker_status (idColumn statusColumn : List String)
    (userId newStatus : String) : Bool × (List String × List String) :=
  match (idColumn.drop 1).findIdx? (fun uidInSheet => uidInSheet == userId) with
  | some j => (true, (idColumn, statusColumn.set (j + 1) newStatus))
  | none => (false, (idColumn, statusColumn))

/-- What one run of `handle_day_checkin` (lines 499-560) does: whether it
succeeds and the status value it writes to the WORKERS sheet, if any. -/
structure DayCheckinOutcome where
  success : Bool
  statusWritten : Option String
deriving DecidableEq

/-- `handle_day_checkin` (lines 499-560).  Line 512 is
`if not await location_service.validate_location(user_id):` — but
`validate_location` (location_service.py lines 146-160) is a plain
synchronous method returning a `bool`, so with `retry_count < 2` the
`await` itself raises `TypeError: object bool can't be used in 'await'
expression`; the handler's `except Exception` (line 558) catches it and
returns `False` before any message is sent or any cell written.  With
`retry_count >= 2` the contact-support message is sent and `False`
returned (line 521).  The success path of lines 523-556 — the only place
in the repository that writes the status `WORKING` — is unreachable for
every retry count. -/
def handle_day_checkin (_userId : Nat) (retryCount : Nat) :
    DayCheckinOutcome :=
  if retryCount < 2 then ⟨false, none⟩
  else if 2 ≤ retryCount then ⟨false, none⟩
  else ⟨true, some "WORKING"⟩

end ReminderSystem

/-! ### `update_working_status` (`services/google_sheets.py`, lines 520-614)

The monthly attendance sheet is a list of rows of cells (row 1 the header);
`get_today_column`, `get_current_month_sheet` and `get_monthly_sheet` are
date/IO-derived and enter as parameters of the state. -/

namespace GoogleSheets

/-- `monthly_sheet.cell(row, col).value or ""` with 1-based indices. -/
def getCell (rows : List (List String)) (row col : Nat) : String :=
  (((rows.get? (row - 1)).getD []).get? (col - 1)).getD ""

/-- Writing one cell of a row, padding with empty cells when the row is
shorter than the column index. -/
def setCellRow (r : List String) (col : Nat) (v : String) : List String :=
  (r ++ List.replicate (col - r.length) "").set (col - 1) v

/-- `update_cell(row, col, v)`: the sheet grows as needed. -/
def setCell (rows : List (List String)) (row col : Nat) (v : String) :
    List (List String) :=
  let padded := rows ++ List.replicate (row - rows.length) []
  padded.set (row - 1) (setCellRow ((padded.get? (row - 1)).getD []) col v)

/-- The WORKERS lookup of lines 539-543: the first data row with at least two
cells whose column B equals the user id yields its column A name. -/
def findUserName (workersRows : List (List String)) (userId : String) :
    Option String :=
  ((workersRows.drop 1).find?
    (fun row => decide (2 ≤ row.length) && ((row.get? 1).getD "" == userId))).map
    (fun row => (row.get? 0).getD "")

/-- The monthly-sheet lookup of lines 570-574: scanning
`monthly_data[2:]` with 1-based row numbers starting at 3. -/
def findUserRowMonthly (monthlyRows : List (List String)) (userName : String) :
    Option Nat :=
  ((monthlyRows.drop 2).findIdx?
    (fun row => decide (0 < row.length) && ((row.get? 0).getD "" == userName))).map
    (fun j => j + 3)

/-- The state `update_working_status` runs against. -/
structure UpdateEnv where
  sheetsOk : Bool
  workersRows : List (List String)
  todayColumn : Option Nat
  monthName : Option String
  monthly : Option (List (List String))
  cache : List ConnectionManager.CacheEntry
deriving DecidableEq

/-- `update_working_status`: find the user's name, locate (or append) the
user's row in the monthly sheet, then write today's cell — except that a
check-out over a cell already holding a complete `"HH:MM-HH:MM"` day returns
`False` without writing.  Every successful write ends with
`connection_manager.clear_cache()`. -/
def update_working_status (env : UpdateEnv) (userId : String)
    (checkedIn : Bool) (checkInTime checkOutTime : String) : Bool × UpdateEnv :=
  if !env.sheetsOk then (false, env)
  else
    match findUserName env.workersRows userId with
    | none => (false, env)
    | some userName =>
      match env.todayColumn with
      | none => (false, env)
      | some todayColumn =>
        match env.monthName with
        | none => (false, env)
        | some _ =>
          match env.monthly with
          | none => (false, env)
          | some monthlyRows =>
            let found := findUserRowMonthly monthlyRows userName
            let userRow := match found with
              | some r => r
              | none => monthlyRows.length + 1
            let monthlyRows1 := match found with
              | some _ => monthlyRows
              | none => monthlyRows ++ [[userName]]
            if checkedIn then
              let todayData := checkInTime ++ "-"
              (true, { env with
                monthly := some (setCell monthlyRows1 userRow todayColumn todayData),
                cache := ConnectionManager.clear_cache env.cache })
            else
              let existingData := getCell monthlyRows1 userRow todayColumn
              if strEndsWithChar existingData '-' then
                let checkInTime := pyStrip (removeDashes existingData)
                let todayData := checkInTime ++ "-" ++ checkOutTime
                (true, { env with
                  monthly := some (setCell monthlyRows1 userRow todayColumn todayData),
                  cache := ConnectionManager.clear_cache env.cache })
              else if strContains existingData '-' && !(strEndsWithChar existingData '-') then
                (false, { env with monthly := some monthlyRows1 })
              else
                (true, { env with
                  monthly := some (setCell monthlyRows1 userRow todayColumn checkOutTime),
                  cache := ConnectionManager.clear_cache env.cache })

end GoogleSheets

/-! ### Registration flow (`handlers/registration_flow.py`) with the routing
of `handlers/message_handler.py`

The in-process flow object: the answers dict (a field is present once
answered), the chosen language and `current_step`.  Inbound events are the
user's text messages and button callbacks; `handle_registration_message`
routes a text to `handle_text_answer` only at steps 2 and 3, and
`handle_callback_query` dispatches callbacks on their `callback_data`
prefix. -/

namespace RegistrationFlow

/-- The `self.data` dict restricted to the eight questionnaire keys (the
only keys the flow's buttons and questions produce). -/
structure RegData where
  full_name : Option String := none
  age : Option String := none
  phone : Option String := none
  email : Option String := none
  address : Option String := none
  transportation : Option String := none
  bank : Option String := none
  driving_license : Option String := none
deriving DecidableEq

/-- The `RegistrationFlow` instance state. -/
structure Flow where
  language : String
  data : RegData
  current_step : Nat
deriving DecidableEq

/-- `handle_language_selection` (lines 47-55). -/
def handle_language_selection (f : Flow) (callbackData : String) : Flow :=
  let f :=
    if callbackData == "lang_gr" then { f with language := "gr" }
    else if callbackData == "lang_en" then { f with language := "en" }
    else f
  { f with current_step := 2 }

/-- `handle_text_answer` (lines 84-110): only at step 2, and only a field
not yet in the dict is set — the first missing one of the five text fields
in order; answering the address moves to step 3. -/
def handle_text_answer (f : Flow) (text : String) : Flow :=
  if f.current_step == 2 then
    if f.data.full_name.isNone then
      { f with data := { f.data with full_name := some text } }
    else if f.data.age.isNone then
      { f with data := { f.data with age := some text } }
    else if f.data.phone.isNone then
      { f with data := { f.data with phone := some text } }
    else if f.data.email.isNone then
      { f with data := { f.data with email := some text } }
    else if f.data.address.isNone then
      { f with data := { f.data with address := some text }, current_step := 3 }
    else f
  else f

/-- Python `s.split('_', 1)` on the character list: the part before the
first underscore and the rest; `none` when there is no underscore (the
two-element unpacking raises there). -/
def pySplitOnceUnderscore : List Char → Option (List Char × List Char)
  | [] => none
  | c :: rest =>
    if c == '_' then some ([], rest)
    else (pySplitOnceUnderscore rest).map (fun p => (c :: p.1, p.2))

/-- `self.data[field] = value` for the eight questionnaire keys; any other key
would extend the Python dict but never occurs in the flow's buttons. -/
def setDataField (f : Flow) (field value : String) : Flow :=
  if field == "full_name" then { f with data := { f.data with full_name := some value } }
  else if field == "age" then { f with data := { f.data with age := some value } }
  else if field == "phone" then { f with data := { f.data with phone := some value } }
  else if field == "email" then { f with data := { f.data with email := some value } }
  else if field == "address" then { f with data := { f.data with address := some value } }
  else if field == "transportation" then { f with data := { f.data with transportation := some value } }
  else if field == "bank" then { f with data := { f.data with bank := some value } }
  else if field == "driving_license" then { f with data := { f.data with driving_license := some value } }
  else f

/-- `handle_selection_answer` (lines 145-171): parse the callback data (the
`driving_license_` payload keeps its YES/NO value translated to Greek; any
other payload splits at the first underscore), store the value, and move to
step 4 (the review screen) after the driving-licence answer. -/
def handle_selection_answer (f : Flow) (callbackData : String) : Flow :=
  let parsed : Option (String × String) :=
    if strStartsWith callbackData "driving_license_" then
      let value := String.mk (callbackData.data.drop 16)
      let value := if value == "YES" then "ΝΑΙ" else if value == "NO" then "ΟΧΙ" else value
      some ("driving_license", value)
    else
      (pySplitOnceUnderscore callbackData.data).map
        (fun p => (String.mk p.1, String.mk p.2))
  match parsed with
  | none => f
  | some (field, value) =>
    let f := setDataField f field value
    if field == "transportation" then f
    else if field == "bank" then f
    else if field == "driving_license" then { f with current_step := 4 }
    else f

/-- `handle_edit_request` (lines 218-229): re-asks the field's question and
changes neither the stored data nor `current_step`. -/
def handle_edit_request (f : Flow) (_callbackData : String) : Flow := f

/-- The REGISTRATION row `save_registration_data` persists (lines 252-273)
restricted to the claim's fields, with `save_worker_data`'s WAITING status:
`confirm_registration` (lines 231-242) sets `status = 'WAITING'`, the user
id and the flow's language before saving. -/
structure SavedRegistration where
  language : String
  user_id : String
  full_name : String
  age : String
  phone : String
  email : String
  address : String
  transportation : String
  bank : String
  driving_license : String
  status : String
deriving DecidableEq

/-- `confirm_registration`: the persisted record (`data.get(k, '')` for a
missing key). -/
def confirm_registration (f : Flow) (userId : String) : SavedRegistration :=
  { language := f.language
    user_id := userId
    full_name := f.data.full_name.getD ""
    age := f.data.age.getD ""
    phone := f.data.phone.getD ""
    email := f.data.email.getD ""
    address := f.data.address.getD ""
    transportation := f.data.transportation.getD ""
    bank := f.data.bank.getD ""
    driving_license := f.data.driving_license.getD ""
    status := "WAITING" }

/-- An inbound update during registration. -/
inductive Event where
  | textMsg (text : String)
  | callback (data : String)

/-- The routing of `message_handler.py`: `handle_registration_message`
(lines 109-123) passes a text to `handle_text_answer` only when
`current_step` is 2 or 3; `handle_callback_query` (lines 174-188)
dispatches `lang_`, `edit_`, `confirm_registration` and selection
callbacks. -/
def handle_event (f : Flow) (e : Event) : Flow :=
  match e with
  | .textMsg text =>
    if f.current_step == 2 || f.current_step == 3 then handle_text_answer f text
    else f
  | .callback d =>
    if strStartsWith d "lang_" then handle_language_selection f d
    else if strStartsWith d "edit_" then handle_edit_request f d
    else if d == "confirm_registration" then f
    else handle_selection_answer f d

/-- `start_registration` (lines 24-27): a fresh flow at step 1 (language
selection), default language Greek. -/
def start_flow : Flow := { language := "gr", data := {}, current_step := 1 }

/-- Process a sequence of inbound updates from the start of registration. -/
def run_events (events : List Event) : Flow :=
  events.foldl handle_event start_flow

end RegistrationFlow

/-! ### Admin evaluation course dates (`handlers/admin_evaluation.py`,
lines 194-241)

A calendar day is its absolute day number with day 0 a Monday, so
`weekday = today % 7` matches Python's `datetime.weekday()`
(Monday = 0, Thursday = 3, Friday = 4). -/

namespace AdminEvaluation

/-- The date arithmetic of `calculate_course_dates` for a target weekday:
`days_ahead = target - weekday; if days_ahead <= 0: days_ahead += 7`, then
the next occurrence and the one a week later. -/
def calculate_course_dates_for (targetWeekday today : Nat) : List Nat :=
  let daysAhead0 : Int := (targetWeekday : Int) - ((today % 7 : Nat) : Int)
  let daysAhead : Int := if daysAhead0 ≤ 0 then daysAhead0 + 7 else daysAhead0
  let firstDate : Int := (today : Int) + daysAhead
  [firstDate.toNat, (firstDate + 7).toNat]

/-- `calculate_course_dates`: position `EQ` targets Friday (4), `HL` and
`Supervisor` target Thursday (3). -/
def calculate_course_dates (position : String) (today : Nat) : List Nat :=
  let targetWeekday : Nat := if position == "EQ" then 4 else 3
  calculate_course_dates_for targetWeekday today

end AdminEvaluation

/-! ## Theorems -/

/-! ### Helper lemmas -/

/-- The haversine distance from a point to itself is zero. -/
theorem calculate_distance_self (lat lon : ℝ) :
    LocationService.calculate_distance lat lon lat lon = 0 := by
  simp [LocationService.calculate_distance, LocationService.radians]

/-- Displacing the latitude by `x` radians (written in degrees) moves the
haversine distance to exactly `6371000 * x`, for `0 ≤ x ≤ π`. -/
theorem calculate_distance_north (lat lon x : ℝ) (h0 : 0 ≤ x)
    (hpi : x ≤ Real.pi) :
    LocationService.calculate_distance lat lon (lat + x * (180 / Real.pi)) lon =
      6371000 * x := by
  have hpi0 : Real.pi ≠ 0 := Real.pi_ne_zero
  simp only [LocationService.calculate_distance, LocationService.radians]
  have h1 : (lat + x * (180 / Real.pi)) * (Real.pi / 180) - lat * (Real.pi / 180) = x := by
    field_simp
  rw [h1]
  have h2 : lon * (Real.pi / 180) - lon * (Real.pi / 180) = 0 := by ring
  rw [h2]
  simp only [zero_div, Real.sin_zero, ne_eq, OfNat.ofNat_ne_zero, not_false_eq_true,
    zero_pow, mul_zero, add_zero]
  have hs : Real.sqrt (Real.sin (x / 2) ^ 2) = Real.sin (x / 2) := by
    rw [Real.sqrt_sq_eq_abs, abs_of_nonneg]
    exact Real.sin_nonneg_of_nonneg_of_le_pi (by linarith) (by linarith [Real.pi_pos])
  rw [hs, Real.arcsin_sin (by linarith [Real.pi_pos]) (by linarith)]
  ring

/-- The haversine distance to the point displaced `d` metres north of the
work site is exactly `d`, for `0 ≤ d ≤ 1000`. -/
theorem calculate_distance_displaced (d : ℝ) (h0 : 0 ≤ d) (hd : d ≤ 1000) :
    LocationService.calculate_distance LocationService.WORK_LATITUDE
      LocationService.WORK_LONGITUDE (LocationService.displacedLatitude d)
      LocationService.WORK_LONGITUDE = d := by
  have hx0 : (0 : ℝ) ≤ d / 6371000 := by positivity
  have hxpi : d / 6371000 ≤ Real.pi := by
    have h3 : (3 : ℝ) < Real.pi := Real.pi_gt_three
    nlinarith
  have h := calculate_distance_north LocationService.WORK_LATITUDE
    LocationService.WORK_LONGITUDE (d / 6371000) hx0 hxpi
  rw [LocationService.displacedLatitude, h]
  ring

/-- The date arithmetic of `calculate_course_dates_for`: the two proposed
dates are a week apart, strictly after today, and on the target weekday. -/
theorem calculate_course_dates_for_spec (targetWeekday today : Nat)
    (h7 : targetWeekday < 7) :
    ∃ a : Nat, AdminEvaluation.calculate_course_dates_for targetWeekday today =
        [a, a + 7] ∧ today < a ∧ a % 7 = targetWeekday ∧
        (a + 7) % 7 = targetWeekday := by
  unfold AdminEvaluation.calculate_course_dates_for
  by_cases hc : (targetWeekday : Int) - ((today % 7 : Nat) : Int) ≤ 0
  · refine ⟨today + (targetWeekday + 7 - today % 7), ?_, ?_, ?_, ?_⟩
    · simp only [if_pos hc, List.cons.injEq, and_true]
      omega
    · have := Nat.mod_lt today (show 0 < 7 by norm_num)
      omega
    · omega
    · omega
  · refine ⟨today + (targetWeekday - today % 7), ?_, ?_, ?_, ?_⟩
    · simp only [if_neg hc, List.cons.injEq, and_true]
      omega
    · omega
    · omega
    · omega

/-! ### Claim theorems -/

/-- Claim C7: the rate limiter's admission check returns `false` exactly when
the number of recorded requests whose timestamps lie within the last
60 seconds has reached the configured ceiling, and `true` otherwise; it
records no request (the request list it leaves behind is a sublist of the
input — pruning only, never an addition; the check contains no sleep, in
contrast to `wait_if_needed`). -/
theorem C7_rate_limiter_admission (maxRequests now : Nat) (requests : List Nat) :
    ((RateLimiter.can_make_request maxRequests now requests).1 = false ↔
      maxRequests ≤ requests.countP (fun t => now - t < 60))
    ∧ (RateLimiter.can_make_request maxRequests now requests).2.Sublist requests := by
  constructor
  · by_cases h : maxRequests ≤ (requests.filter (fun t => now - t < 60)).length
    · simp [RateLimiter.can_make_request, h, List.countP_eq_length_filter]
    · simp [RateLimiter.can_make_request, h, List.countP_eq_length_filter]
  · simp only [RateLimiter.can_make_request]
    by_cases h : maxRequests ≤ (requests.filter (fun t => now - t < 60)).length
    · simp only [if_pos h]
      exact List.filter_sublist requests
    · simp only [if_neg h]
      exact List.filter_sublist requests

/-- Claim C8: for every current date, position `EQ` proposes exactly two
dates, both Fridays (weekday 4 with Monday = 0), strictly after today and a
week apart; positions `HL` and `Supervisor` propose exactly two Thursdays
(weekday 3) strictly after today and a week apart; no proposal equals
today. -/
theorem C8_course_date_proposals (today : Nat) :
    (∃ a, AdminEvaluation.calculate_course_dates "EQ" today = [a, a + 7] ∧
      today < a ∧ a % 7 = 4 ∧ (a + 7) % 7 = 4)
    ∧ (∃ a, AdminEvaluation.calculate_course_dates "HL" today = [a, a + 7] ∧
      today < a ∧ a % 7 = 3 ∧ (a + 7) % 7 = 3)
    ∧ (∃ a, AdminEvaluation.calculate_course_dates "Supervisor" today = [a, a + 7] ∧
      today < a ∧ a % 7 = 3 ∧ (a + 7) % 7 = 3) := by
  refine ⟨?_, ?_, ?_⟩
  · have h := calculate_course_dates_for_spec 4 today (by norm_num)
    simpa [AdminEvaluation.calculate_course_dates] using h
  · have h := calculate_course_dates_for_spec 3 today (by norm_num)
    simpa [AdminEvaluation.calculate_course_dates] using h
  · have h := calculate_course_dates_for_spec 3 today (by norm_num)
    simpa [AdminEvaluation.calculate_course_dates] using h

/-- Claim C9: with the configured work site and 500 m radius, the exact
work-site coordinate is admitted; any coordinate at haversine distance
`radius + 1` is rejected; any coordinate at distance `radius - 1` is
admitted; admission holds exactly when the distance is at most the
radius. -/
theorem C9_location_validator_boundary :
    LocationService.validate_work_location LocationService.WORK_LATITUDE
      LocationService.WORK_LONGITUDE = true
    ∧ (∀ lat lon,
        LocationService.calculate_distance LocationService.WORK_LATITUDE
          LocationService.WORK_LONGITUDE lat lon =
          LocationService.RADIUS_METERS + 1 →
        LocationService.validate_work_location lat lon = false)
    ∧ (∀ lat lon,
        LocationService.calculate_distance LocationService.WORK_LATITUDE
          LocationService.WORK_LONGITUDE lat lon =
          LocationService.RADIUS_METERS - 1 →
        LocationService.validate_work_location lat lon = true)
    ∧ (∀ lat lon,
        LocationService.validate_work_location lat lon = true ↔
        LocationService.calculate_distance LocationService.WORK_LATITUDE
          LocationService.WORK_LONGITUDE lat lon ≤
          LocationService.RADIUS_METERS) := by
  have hval : ∀ lat lon,
      LocationService.validate_work_location lat lon = true ↔
      LocationService.calculate_distance LocationService.WORK_LATITUDE
        LocationService.WORK_LONGITUDE lat lon ≤ LocationService.RADIUS_METERS := by
    intro lat lon
    simp only [LocationService.validate_work_location]
    split
    · simpa
    · rename_i h
      simp [h]
  refine ⟨?_, ?_, ?_, hval⟩
  · refine (hval _ _).mpr ?_
    rw [calculate_distance_self]
    norm_num [LocationService.RADIUS_METERS]
  · intro lat lon h
    cases hb : LocationService.validate_work_location lat lon
    · rfl
    · exfalso
      have hd := (hval lat lon).mp hb
      rw [h] at hd
      norm_num [LocationService.RADIUS_METERS] at hd
  · intro lat lon h
    refine (hval _ _).mpr ?_
    rw [h]
    norm_num [LocationService.RADIUS_METERS]

/-- Witness for C9: the coordinate 501 m due north of the work site is
rejected and the one 499 m due north is admitted. -/
theorem C9_location_validator_boundary_witness :
    LocationService.validate_work_location (LocationService.displacedLatitude 501)
      LocationService.WORK_LONGITUDE = false
    ∧ LocationService.validate_work_location (LocationService.displacedLatitude 499)
      LocationService.WORK_LONGITUDE = true := by
  constructor
  · refine C9_location_validator_boundary.2.1 _ _ ?_
    rw [calculate_distance_displaced 501 (by norm_num) (by norm_num)]
    norm_num [LocationService.RADIUS_METERS]
  · refine C9_location_validator_boundary.2.2.1 _ _ ?_
    rw [calculate_distance_displaced 499 (by norm_num) (by norm_num)]
    norm_num [LocationService.RADIUS_METERS]

/-- Claim C3: a subject's status is set to `WORKING` by the day-of check-in
flow only if a location validation against the work site succeeded —
confirmed, vacuously: no execution of `handle_day_checkin` writes any
status at all.  With fewer than 2 recorded retries the handler `await`s the
synchronous `validate_location`, which raises `TypeError`, so the `except`
of line 558 returns `False`; with 2 or more retries the contact-support
branch returns `False`.  The `WORKING` write of line 547 — the only writer
of `WORKING` in the repository — is dead code, so every execution that
reaches `WORKING` (there are none) had a passing location check. -/
theorem C3_day_checkin_never_writes_working :
    (∀ userId retryCount,
      ReminderSystem.handle_day_checkin userId retryCount = ⟨false, none⟩)
    ∧ (∀ userId retryCount lat lon,
        (ReminderSystem.handle_day_checkin userId retryCount).statusWritten
          = some "WORKING" →
        LocationService.validate_work_location lat lon = true) := by
  have hall : ∀ userId retryCount,
      ReminderSystem.handle_day_checkin userId retryCount
        = ⟨false, none⟩ := by
    intro u rc
    unfold ReminderSystem.handle_day_checkin
    by_cases h : rc < 2
    · rw [if_pos h]
    · rw [if_neg h, if_pos (by omega)]
  refine ⟨hall, ?_⟩
  intro u rc lat lon hw
  rw [hall u rc] at hw
  simp at hw

/-- Claim C1 (code bug): in the completed registration trace below the
subject answers the questionnaire with `full_name = "Maria A"`, presses
`Edit NAME` on the review screen, sends the corrected name `"Maria B"`, and
confirms.  The persisted record has status `WAITING` but keeps the FIRST
value `"Maria A"`: the edit reply is dropped, because `current_step` stays 4
so `handle_registration_message` never routes the text to
`handle_text_answer` (and `handle_text_answer` itself only fills fields not
yet present).  The claim's requirement that an edit overwrite the stored
value fails for every one of the five text fields. -/
theorem C1_text_edit_at_review_is_dropped :
    RegistrationFlow.confirm_registration
      (RegistrationFlow.run_events
        [ .callback "lang_en",
          .textMsg "Maria A", .textMsg "25", .textMsg "6900000000",
          .textMsg "maria@example.com", .textMsg "Athens 1",
          .callback "transportation_CAR", .callback "bank_NBG",
          .callback "driving_license_YES",
          .callback "edit_full_name", .textMsg "Maria B",
          .callback "confirm_registration" ]) "12345"
    = { language := "en", user_id := "12345", full_name := "Maria A",
        age := "25", phone := "6900000000", email := "maria@example.com",
        address := "Athens 1", transportation := "CAR", bank := "NBG",
        driving_license := "ΝΑΙ", status := "WAITING" } := by decide

/-- The retry loop makes at most `fuel` underlying calls. -/
theorem retryAux_calls_le {α : Type} (f : Nat → GoogleSheets.CallOutcome α)
    (m d : Nat) : ∀ fuel a, (GoogleSheets.retryAux f m d a fuel).calls ≤ fuel := by
  intro fuel
  induction fuel with
  | zero => intro a; simp [GoogleSheets.retryAux]
  | succ n ih =>
    intro a
    cases hfa : f a with
    | success v => simp [GoogleSheets.retryAux, hfa]
    | httpError s =>
      simp only [GoogleSheets.retryAux, hfa]
      split
      · have := ih (a + 1)
        simp only []
        omega
      · simp
    | otherError => simp [GoogleSheets.retryAux, hfa]

/-- Claim C5: the retry wrapper, as applied in the source
(`max_retries = 3`, `delay = 2`): it never makes more than 3 underlying
calls; three consecutive quota errors (HTTP 429) surface after exactly
3 attempts with two fixed 2-second backoffs; a success after `k` quota
errors returns after `k + 1` calls; and an error that is not a quota error
— another HTTP status or any other exception — surfaces at its first
occurrence with no further call. -/
theorem C5_retry_on_quota_error {α : Type} (f : Nat → GoogleSheets.CallOutcome α) :
    ((GoogleSheets.retry_on_quota_error f 3 2).calls ≤ 3)
    ∧ ((∀ i, i < 3 → f i = .httpError 429) →
        GoogleSheets.retry_on_quota_error f 3 2 =
          ⟨.raised (.httpError 429), 3, 4⟩)
    ∧ (∀ (v : α) (k : Nat), k < 3 → (∀ i, i < k → f i = .httpError 429) →
        f k = .success v →
        GoogleSheets.retry_on_quota_error f 3 2 = ⟨.returned v, k + 1, 2 * k⟩)
    ∧ (∀ k, k < 3 → (∀ i, i < k → f i = .httpError 429) →
        f k = .otherError →
        GoogleSheets.retry_on_quota_error f 3 2 =
          ⟨.raised .otherError, k + 1, 2 * k⟩)
    ∧ (∀ k s, k < 3 → (∀ i, i < k → f i = .httpError 429) →
        f k = .httpError s → s ≠ 429 →
        GoogleSheets.retry_on_quota_error f 3 2 =
          ⟨.raised (.httpError s), k + 1, 2 * k⟩) := by
  refine ⟨retryAux_calls_le f 3 2 3 0, ?_, ?_, ?_, ?_⟩
  · intro hq
    have h0 := hq 0 (by norm_num)
    have h1 := hq 1 (by norm_num)
    have h2 := hq 2 (by norm_num)
    simp [GoogleSheets.retry_on_quota_error, GoogleSheets.retryAux, h0, h1, h2]
  · intro v k hk hq hs
    interval_cases k
    · simp [GoogleSheets.retry_on_quota_error, GoogleSheets.retryAux, hs]
    · have h0 := hq 0 (by norm_num)
      simp [GoogleSheets.retry_on_quota_error, GoogleSheets.retryAux, h0, hs]
    · have h0 := hq 0 (by norm_num)
      have h1 := hq 1 (by norm_num)
      simp [GoogleSheets.retry_on_quota_error, GoogleSheets.retryAux, h0, h1, hs]
  · intro k hk hq hs
    interval_cases k
    · simp [GoogleSheets.retry_on_quota_error, GoogleSheets.retryAux, hs]
    · have h0 := hq 0 (by norm_num)
      simp [GoogleSheets.retry_on_quota_error, GoogleSheets.retryAux, h0, hs]
    · have h0 := hq 0 (by norm_num)
      have h1 := hq 1 (by norm_num)
      simp [GoogleSheets.retry_on_quota_error, GoogleSheets.retryAux, h0, h1, hs]
  · intro k s hk hq hs hs429
    interval_cases k
    · simp [GoogleSheets.retry_on_quota_error, GoogleSheets.retryAux, hs, hs429]
    · have h0 := hq 0 (by norm_num)
      simp [GoogleSheets.retry_on_quota_error, GoogleSheets.retryAux, h0, hs, hs429]
    · have h0 := hq 0 (by norm_num)
      have h1 := hq 1 (by norm_num)
      simp [GoogleSheets.retry_on_quota_error, GoogleSheets.retryAux, h0, h1, hs, hs429]

/-- Witness for C5 at concrete callables: three straight 429s surface after
3 calls and 4 s of backoff, and a single non-HTTP exception surfaces after
1 call with no backoff. -/
theorem C5_retry_on_quota_error_witness :
    GoogleSheets.retry_on_quota_error
      (fun _ => (GoogleSheets.CallOutcome.httpError 429 : GoogleSheets.CallOutcome Nat)) 3 2 =
      ⟨.raised (.httpError 429), 3, 4⟩
    ∧ GoogleSheets.retry_on_quota_error
      (fun _ => (GoogleSheets.CallOutcome.otherError : GoogleSheets.CallOutcome Nat)) 3 2 =
      ⟨.raised .otherError, 1, 0⟩ := by
  constructor
  · exact (C5_retry_on_quota_error _).2.1 (fun i _ => rfl)
  · exact (C5_retry_on_quota_error _).2.2.2.1 0 (by norm_num) (fun i h => by omega) rfl

/-- Claim C10: a check-out (`update_working_status` with `checked_in` false)
over a cell already holding a complete day value — one containing a dash and
not ending with one — returns `False` and changes nothing: neither the
monthly sheet nor the cache. -/
theorem C10_checkout_never_overwrites_complete_day
    (env : GoogleSheets.UpdateEnv)
    (userId checkInTime checkOutTime userName monthName : String)
    (todayColumn userRow : Nat) (monthlyRows : List (List String))
    (hok : env.sheetsOk = true)
    (hname : GoogleSheets.findUserName env.workersRows userId = some userName)
    (hcol : env.todayColumn = some todayColumn)
    (hmonth : env.monthName = some monthName)
    (hmonthly : env.monthly = some monthlyRows)
    (hrow : GoogleSheets.findUserRowMonthly monthlyRows userName = some userRow)
    (hdash : strContains (GoogleSheets.getCell monthlyRows userRow todayColumn) '-' = true)
    (hnotend : strEndsWithChar (GoogleSheets.getCell monthlyRows userRow todayColumn) '-' = false) :
    GoogleSheets.update_working_status env userId false checkInTime checkOutTime
      = (false, env) := by
  simp only [GoogleSheets.update_working_status, hok, hname, hcol, hmonth, hmonthly,
    hrow, hdash, hnotend, Bool.not_true, Bool.false_eq_true, if_false,
    Bool.not_false, Bool.and_true, if_true]
  rw [← hmonthly, ← hok, ← hcol, ← hmonth]

/-- Witness for C10: a concrete sheet where worker `7`'s cell for the day
already holds `"09:00-17:00"`; the check-out returns `false` and the state
is unchanged. -/
theorem C10_checkout_never_overwrites_complete_day_witness :
    GoogleSheets.update_working_status
      { sheetsOk := true
        workersRows := [["NAME", "ID"], ["Maria", "7"]]
        todayColumn := some 2
        monthName := some "2026/10"
        monthly := some [["NAME", "1"], ["HDR", "x"], ["Maria", "09:00-17:00"]]
        cache := [⟨"user_status_7", "WORKING", 0⟩] } "7" false "" "18:00"
    = (false,
      { sheetsOk := true
        workersRows := [["NAME", "ID"], ["Maria", "7"]]
        todayColumn := some 2
        monthName := some "2026/10"
        monthly := some [["NAME", "1"], ["HDR", "x"], ["Maria", "09:00-17:00"]]
        cache := [⟨"user_status_7", "WORKING", 0⟩] }) :=
  C10_checkout_never_overwrites_complete_day _ "7" "" "18:00" "Maria" "2026/10"
    2 3 [["NAME", "1"], ["HDR", "x"], ["Maria", "09:00-17:00"]]
    (by decide) (by decide) (by decide) (by decide) (by decide) (by decide)
    (by decide) (by decide)

/-- Counterexample for C4: the reminder system's status write
(`_update_worker_status`) invalidates nothing.  At time 0 a status lookup
for worker `7` reads `WAITING` and caches it; the worker's status cell is
then overwritten with `APPROVED_COURSE_DATE_SET`; at time 10 — well inside
the 30-second TTL — the lookup still returns the pre-write value `WAITING`
from the cache. -/
theorem C4_status_write_leaves_stale_cache :
    (GoogleSheets.check_user_status
      { now := 0, cache := [], rateOk := true,
        init := some ⟨.ok ["ID", "7"], .ok ["STATUS", "WAITING"]⟩ } "7"
      = ("WAITING", [⟨"user_status_7", "WAITING", 0⟩]))
    ∧ (ReminderSystem.update_worker_status ["ID", "7"] ["STATUS", "WAITING"]
        "7" "APPROVED_COURSE_DATE_SET"
      = (true, (["ID", "7"], ["STATUS", "APPROVED_COURSE_DATE_SET"])))
    ∧ ((GoogleSheets.check_user_status
        { now := 10, cache := [⟨"user_status_7", "WAITING", 0⟩], rateOk := true,
          init := some ⟨.ok ["ID", "7"],
            .ok ["STATUS", "APPROVED_COURSE_DATE_SET"]⟩ } "7").1
      = "WAITING") := by decide

/-- Claim C4 as amended: of the write paths, the attendance-cell write
(`update_working_status`) does invalidate — every run of it that reports
success leaves the response cache empty (`clear_cache` runs after the
write). -/
theorem C4_successful_attendance_write_clears_cache
    (env : GoogleSheets.UpdateEnv) (userId : String) (checkedIn : Bool)
    (checkInTime checkOutTime : String)
    (h : (GoogleSheets.update_working_status env userId checkedIn checkInTime
      checkOutTime).1 = true) :
    ((GoogleSheets.update_working_status env userId checkedIn checkInTime
      checkOutTime).2).cache = [] := by
  by_cases h1 : env.sheetsOk
  case neg => simp [GoogleSheets.update_working_status, h1] at h
  case pos =>
  cases hn : GoogleSheets.findUserName env.workersRows userId with
  | none => simp [GoogleSheets.update_working_status, h1, hn] at h
  | some userName =>
  cases hc : env.todayColumn with
  | none => simp [GoogleSheets.update_working_status, h1, hn, hc] at h
  | some todayColumn =>
  cases hm : env.monthName with
  | none => simp [GoogleSheets.update_working_status, h1, hn, hc, hm] at h
  | some monthName =>
  cases hmo : env.monthly with
  | none => simp [GoogleSheets.update_working_status, h1, hn, hc, hm, hmo] at h
  | some monthlyRows =>
  cases checkedIn with
  | true =>
    simp [GoogleSheets.update_working_status, h1, hn, hc, hm, hmo,
      ConnectionManager.clear_cache]
  | false =>
    by_cases he1 : strEndsWithChar
        (GoogleSheets.getCell
          (match GoogleSheets.findUserRowMonthly monthlyRows userName with
           | some _ => monthlyRows
           | none => monthlyRows ++ [[userName]])
          (match GoogleSheets.findUserRowMonthly monthlyRows userName with
           | some r => r
           | none => monthlyRows.length + 1)
          todayColumn) '-' = true
    · simp [GoogleSheets.update_working_status, h1, hn, hc, hm, hmo, he1,
        ConnectionManager.clear_cache]
    · by_cases he2 : strContains
          (GoogleSheets.getCell
            (match GoogleSheets.findUserRowMonthly monthlyRows userName with
             | some _ => monthlyRows
             | none => monthlyRows ++ [[userName]])
            (match GoogleSheets.findUserRowMonthly monthlyRows userName with
             | some r => r
             | none => monthlyRows.length + 1)
            todayColumn) '-' = true
      · simp [GoogleSheets.update_working_status, h1, hn, hc, hm, hmo, he1, he2] at h
      · simp [GoogleSheets.update_working_status, h1, hn, hc, hm, hmo, he1, he2,
          ConnectionManager.clear_cache]

/-- Witness for C4's amended theorem: a concrete successful check-out run
whose final cache is empty. -/
theorem C4_successful_attendance_write_clears_cache_witness :
    ((GoogleSheets.update_working_status
      { sheetsOk := true
        workersRows := [["NAME", "ID"], ["Maria", "7"]]
        todayColumn := some 2
        monthName := some "2026/10"
        monthly := some [["NAME", "1"], ["HDR", "x"], ["Maria", "09:00-"]]
        cache := [⟨"user_status_7", "WORKING", 0⟩] } "7" false "" "18:00").2).cache
    = [] :=
  C4_successful_attendance_write_clears_cache _ "7" false "" "18:00" (by decide)

/-- The status search returns `NOT_FOUND` exactly when the user id is absent
from the scanned id cells, provided no status cell itself renders as the
literal `"NOT_FOUND"`. -/
theorem searchStatusAux_notfound_iff (userId : String) (statusCol : List String)
    (hclean : ∀ s ∈ statusCol, GoogleSheets.stripStatus s ≠ "NOT_FOUND") :
    ∀ ids j, (GoogleSheets.searchStatusAux userId ids statusCol j = "NOT_FOUND"
      ↔ ids.any (fun s => s == userId) = false) := by
  intro ids
  induction ids with
  | nil => intro j; simp [GoogleSheets.searchStatusAux]
  | cons x xs ih =>
    intro j
    by_cases hx : (x == userId) = true
    · have hne : GoogleSheets.stripStatus ((statusCol.get? (j + 1)).getD "UNKNOWN")
        ≠ "NOT_FOUND" := by
        cases hr : statusCol.get? (j + 1) with
        | some v =>
          have hv : v ∈ statusCol := List.get?_mem hr
          simpa [hr] using hclean v hv
        | none =>
          simp only [hr, Option.getD]
          decide
      simp only [List.get?_eq_getElem?] at hne
      simp [GoogleSheets.searchStatusAux, hx, hne]
    · simp [GoogleSheets.searchStatusAux, hx, ih (j + 1)]

/-- Claim C6: one execution of `check_user_status` reports `ERROR` whenever
it actually reaches out to the store and the store is unreachable — the rate
limiter refuses, the connection initialisation fails, or a column read
raises; a cache hit returns the cached value of an earlier successful read;
and an execution that goes to the store returns `NOT_FOUND` exactly when the
read succeeds and the identifier is absent from the workers table.  A store
outage is never reported as `NOT_FOUND`. -/
theorem C6_store_unreachable_reports_error (env : GoogleSheets.CheckEnv)
    (userId : String) :
    (((ConnectionManager.get_cached_data env.now env.cache
        ("user_status_" ++ userId)).1 = none) →
      (env.rateOk = false ∨ env.init = none ∨
        (∃ w, env.init = some w ∧ (w.idCol = .raise ∨ w.statusCol = .raise))) →
      (GoogleSheets.check_user_status env userId).1 = "ERROR")
    ∧ (∀ s, (ConnectionManager.get_cached_data env.now env.cache
        ("user_status_" ++ userId)).1 = some s →
      (GoogleSheets.check_user_status env userId).1 = s)
    ∧ (((ConnectionManager.get_cached_data env.now env.cache
        ("user_status_" ++ userId)).1 = none) →
      env.rateOk = true →
      ∀ idColumn statusColumn,
        env.init = some ⟨.ok idColumn, .ok statusColumn⟩ →
        (∀ s ∈ statusColumn, GoogleSheets.stripStatus s ≠ "NOT_FOUND") →
        ((GoogleSheets.check_user_status env userId).1 = "NOT_FOUND" ↔
          (idColumn.drop 1).any (fun s => s == userId) = false)) := by
  refine ⟨?_, ?_, ?_⟩
  · intro hmiss hbad
    rcases hgc : ConnectionManager.get_cached_data env.now env.cache
      ("user_status_" ++ userId) with ⟨copt, cache1⟩
    rw [hgc] at hmiss
    simp only at hmiss
    subst hmiss
    rcases hbad with hrate | hinit | ⟨w, hw, hcols⟩
    · simp [GoogleSheets.check_user_status, hgc, hrate]
    · simp [GoogleSheets.check_user_status, hgc, hinit]
    · by_cases hrate : env.rateOk
      · obtain ⟨ic, sc⟩ := w
        rcases hcols with hic | hsc
        · have hic2 : ic = .raise := hic
          subst hic2
          cases sc <;> simp [GoogleSheets.check_user_status, hgc, hw, hrate]
        · have hsc2 : sc = .raise := hsc
          subst hsc2
          cases ic <;> simp [GoogleSheets.check_user_status, hgc, hw, hrate]
      · simp [GoogleSheets.check_user_status, hgc, hrate]
  · intro s hs
    rcases hgc : ConnectionManager.get_cached_data env.now env.cache
      ("user_status_" ++ userId) with ⟨copt, cache1⟩
    rw [hgc] at hs
    simp only at hs
    subst hs
    simp [GoogleSheets.check_user_status, hgc]
  · intro hmiss hrate idColumn statusColumn hinit hclean
    rcases hgc : ConnectionManager.get_cached_data env.now env.cache
      ("user_status_" ++ userId) with ⟨copt, cache1⟩
    rw [hgc] at hmiss
    simp only at hmiss
    subst hmiss
    simp only [GoogleSheets.check_user_status, hgc, hinit, hrate, Bool.not_true,
      Bool.false_eq_true, if_false]
    exact searchStatusAux_notfound_iff userId statusColumn hclean (idColumn.drop 1) 0

/-- Witness for C6: a rate-limiter refusal on a cache miss yields `ERROR`,
and a successful read of a table not containing the identifier yields
`NOT_FOUND`. -/
theorem C6_store_unreachable_reports_error_witness :
    ((GoogleSheets.check_user_status
      { now := 0, cache := [], rateOk := false, init := none } "7").1 = "ERROR")
    ∧ ((GoogleSheets.check_user_status
      { now := 0, cache := [], rateOk := true,
        init := some ⟨.ok ["ID", "9"], .ok ["STATUS", "WAITING"]⟩ } "7").1
      = "NOT_FOUND") := by
  constructor
  · exact (C6_store_unreachable_reports_error
      { now := 0, cache := [], rateOk := false, init := none } "7").1
      (by decide) (Or.inl rfl)
  · exact ((C6_store_unreachable_reports_error
      { now := 0, cache := [], rateOk := true,
        init := some ⟨.ok ["ID", "9"], .ok ["STATUS", "WAITING"]⟩ } "7").2.2
      (by decide) rfl ["ID", "9"] ["STATUS", "WAITING"] rfl (by decide)).mpr
      (by decide)

/-- When exactly one element of a list satisfies a predicate, the search
finds any satisfying member. -/
theorem find?_eq_of_countP_one {α : Type} (p : α → Bool) :
    ∀ (l : List α) (x : α), l.countP p = 1 → x ∈ l → p x = true →
      l.find? p = some x := by
  intro l
  induction l with
  | nil => intro x h1 hx; cases hx
  | cons a rest ih =>
    intro x h1 hx hpx
    rw [List.countP_cons] at h1
    by_cases ha : p a = true
    · simp only [List.find?_cons, ha]
      have hz : rest.countP p = 0 := by simp only [ha, if_true] at h1; omega
      rcases List.mem_cons.mp hx with rfl | hxr
      · rfl
      · exact absurd hpx (by simpa using List.countP_eq_zero.mp hz x hxr)
    · have ha2 : p a = false := by simpa using ha
      simp only [List.find?_cons, ha2]
      have h1x : rest.countP p = 1 := by
        simp only [ha2, Bool.false_eq_true, if_false] at h1
        omega
      rcases List.mem_cons.mp hx with rfl | hxr
      · exact absurd hpx ha
      · exact ih x h1x hxr hpx

/-- gspread's truncation returns an initial segment of the full column. -/
theorem dropTrailingEmpty_prefix_self :
    ∀ l : List String, ReminderSystem.dropTrailingEmpty l <+: l := by
  intro l
  induction l with
  | nil => simp [ReminderSystem.dropTrailingEmpty]
  | cons c rest ih =>
    simp only [ReminderSystem.dropTrailingEmpty]
    cases hr : ReminderSystem.dropTrailingEmpty rest with
    | nil =>
      by_cases hc : (c == "") = true
      · rw [if_pos hc]; exact List.nil_prefix
      · rw [if_neg hc]; exact ⟨rest, rfl⟩
    | cons x xs =>
      rw [hr] at ih
      obtain ⟨t, ht⟩ := ih
      exact ⟨t, by rw [List.cons_append, ht]⟩

/-- Within an initial segment, indexing agrees with the full list. -/
theorem getD_eq_of_prefix_of_lt (l₁ l₂ : List String) (h : l₁ <+: l₂) (i : Nat)
    (hi : i < l₁.length) : l₁.getD i "" = l₂.getD i "" := by
  obtain ⟨t, rfl⟩ := h
  rw [List.getD_eq_getElem?_getD, List.getD_eq_getElem?_getD,
    List.getElem?_append_left hi]

/-- A truncated column is no longer than header plus data rows. -/
theorem col_values_length_le (f : ReminderSystem.RegRow → String)
    (sheet : ReminderSystem.RegSheet) :
    (ReminderSystem.col_values f sheet).length ≤ sheet.rows.length + 1 := by
  have h := (dropTrailingEmpty_prefix_self
    (f sheet.headers :: sheet.rows.map f)).length_le
  simpa [ReminderSystem.col_values] using h

/-- Inside the truncated column, a cell equals the corresponding cell of
the untruncated column. -/
theorem col_values_getD (f : ReminderSystem.RegRow → String)
    (sheet : ReminderSystem.RegSheet) (i : Nat)
    (hi : i < (ReminderSystem.col_values f sheet).length) :
    (ReminderSystem.col_values f sheet).getD i ""
      = (f sheet.headers :: sheet.rows.map f).getD i "" :=
  getD_eq_of_prefix_of_lt _ _ (dropTrailingEmpty_prefix_self _) i hi

/-- A truncated-column cell at index `i ≥ 1` is field `f` of the data row
at index `i - 1`. -/
theorem col_values_getD_data (f : ReminderSystem.RegRow → String)
    (sheet : ReminderSystem.RegSheet) (i : Nat) (h1 : 1 ≤ i)
    (hi : i < (ReminderSystem.col_values f sheet).length) :
    ∃ r, sheet.rows[i - 1]? = some r ∧
      (ReminderSystem.col_values f sheet).getD i "" = f r := by
  have hlen := col_values_length_le f sheet
  have hi2 : i - 1 < sheet.rows.length := by omega
  cases hr : sheet.rows[i - 1]? with
  | none =>
    rw [List.getElem?_eq_none_iff] at hr
    omega
  | some r =>
    refine ⟨r, rfl, ?_⟩
    rw [col_values_getD f sheet i hi]
    obtain ⟨j, rfl⟩ : ∃ j, i = j + 1 := ⟨i - 1, by omega⟩
    simp only [List.getD_cons_succ, List.getD_eq_getElem?_getD,
      List.getElem?_cons_succ, List.getElem?_map]
    simp only [Nat.add_sub_cancel] at hr
    rw [hr]
    rfl

/-- A non-empty cell is never truncated away: its index stays within the
truncated column. -/
theorem lt_dropTrailingEmpty_length :
    ∀ (l : List String) (i : Nat), l.getD i "" ≠ "" →
      i < (ReminderSystem.dropTrailingEmpty l).length := by
  intro l
  induction l with
  | nil => intro i h; simp [List.getD] at h
  | cons c rest ih =>
    intro i h
    cases i with
    | zero =>
      simp only [List.getD_cons_zero] at h
      simp only [ReminderSystem.dropTrailingEmpty]
      cases hr : ReminderSystem.dropTrailingEmpty rest with
      | nil =>
        have hc : (c == "") = false := by simpa using h
        simp [hc]
      | cons x xs => simp
    | succ j =>
      simp only [List.getD_cons_succ] at h
      have hj := ih j h
      simp only [ReminderSystem.dropTrailingEmpty]
      cases hr : ReminderSystem.dropTrailingEmpty rest with
      | nil => rw [hr] at hj; simp at hj
      | cons x xs =>
        rw [hr] at hj
        simp only [List.length_cons]
        simp only [List.length_cons] at hj
        omega

/-- When exactly one element of a list satisfies a predicate, any two
positions holding satisfying elements coincide. -/
theorem countP_one_index_unique {α : Type} (p : α → Bool) :
    ∀ (l : List α) (i j : Nat) (x y : α), l.countP p = 1 →
      l[i]? = some x → l[j]? = some y → p x = true → p y = true → i = j := by
  intro l
  induction l with
  | nil => intro i j x y _ hx; simp at hx
  | cons a rest ih =>
    intro i j x y h1 hx hy hpx hpy
    rw [List.countP_cons] at h1
    cases i with
    | zero =>
      cases j with
      | zero => rfl
      | succ j2 =>
        simp only [List.getElem?_cons_zero, Option.some.injEq] at hx
        simp only [List.getElem?_cons_succ] at hy
        have ha : p a = true := by rw [hx]; exact hpx
        have hz : rest.countP p = 0 := by simp only [ha, if_true] at h1; omega
        exact absurd hpy
          (by simpa using List.countP_eq_zero.mp hz y (List.getElem?_mem hy))
    | succ i2 =>
      cases j with
      | zero =>
        simp only [List.getElem?_cons_zero, Option.some.injEq] at hy
        simp only [List.getElem?_cons_succ] at hx
        have ha : p a = true := by rw [hy]; exact hpy
        have hz : rest.countP p = 0 := by simp only [ha, if_true] at h1; omega
        exact absurd hpx
          (by simpa using List.countP_eq_zero.mp hz x (List.getElem?_mem hx))
      | succ j2 =>
        simp only [List.getElem?_cons_succ] at hx hy
        by_cases ha : p a = true
        · have hz : rest.countP p = 0 := by
            simp only [ha, if_true] at h1; omega
          exact absurd hpx
            (by simpa using List.countP_eq_zero.mp hz x (List.getElem?_mem hx))
        · have ha2 : p a = false := by simpa using ha
          have h1x : rest.countP p = 1 := by
            simp only [ha2, Bool.false_eq_true, if_false] at h1; omega
          have := ih i2 j2 x y h1x hx hy hpx hpy
          omega

/-- Indexing after writing one FIRST_REMINDER_SENT cell. -/
theorem setSentAt_getElem? :
    ∀ (l : List ReminderSystem.RegRow) (k j : Nat),
      (ReminderSystem.setSentAt l k)[j]? =
        if j = k then
          (l[j]?).map (fun r => { r with firstReminderSent := "SENT" })
        else l[j]? := by
  intro l
  induction l with
  | nil => intro k j; simp [ReminderSystem.setSentAt]
  | cons r rest ih =>
    intro k j
    cases k with
    | zero =>
      cases j with
      | zero => simp [ReminderSystem.setSentAt]
      | succ j2 => simp [ReminderSystem.setSentAt]
    | succ k2 =>
      cases j with
      | zero => simp [ReminderSystem.setSentAt]
      | succ j2 =>
        simp only [ReminderSystem.setSentAt, List.getElem?_cons_succ, ih,
          Nat.add_right_cancel_iff]

/-- Writing a FIRST_REMINDER_SENT cell preserves every column the write
does not touch. -/
theorem setSentAt_map (f : ReminderSystem.RegRow → String)
    (hf : ∀ r, f { r with firstReminderSent := "SENT" } = f r) :
    ∀ (l : List ReminderSystem.RegRow) (k : Nat),
      (ReminderSystem.setSentAt l k).map f = l.map f := by
  intro l
  induction l with
  | nil => intro k; rfl
  | cons r rest ih =>
    intro k
    cases k with
    | zero => simp [ReminderSystem.setSentAt, hf]
    | succ k2 => simp [ReminderSystem.setSentAt, ih]

/-- `_mark_reminder_sent` never touches the header row. -/
theorem mark_headers (sheet : ReminderSystem.RegSheet) (userId : String) :
    (ReminderSystem.mark_first_reminder_sent sheet userId).headers
      = sheet.headers := by
  simp only [ReminderSystem.mark_first_reminder_sent]
  split <;> rfl

/-- `_mark_reminder_sent` preserves every column other than
FIRST_REMINDER_SENT. -/
theorem mark_rows_map (f : ReminderSystem.RegRow → String)
    (hf : ∀ r, f { r with firstReminderSent := "SENT" } = f r)
    (sheet : ReminderSystem.RegSheet) (userId : String) :
    (ReminderSystem.mark_first_reminder_sent sheet userId).rows.map f
      = sheet.rows.map f := by
  simp only [ReminderSystem.mark_first_reminder_sent]
  split
  · exact setSentAt_map f hf sheet.rows _
  · rfl

/-- `_mark_reminder_sent` preserves the truncated reads of the columns it
does not write. -/
theorem mark_col_values (f : ReminderSystem.RegRow → String)
    (hf : ∀ r, f { r with firstReminderSent := "SENT" } = f r)
    (sheet : ReminderSystem.RegSheet) (userId : String) :
    ReminderSystem.col_values f
        (ReminderSystem.mark_first_reminder_sent sheet userId)
      = ReminderSystem.col_values f sheet := by
  unfold ReminderSystem.col_values
  rw [mark_headers, mark_rows_map f hf]

/-- For a subject with a unique REGISTRATION row, an id cell of the
truncated column B matches the subject exactly at the subject's index. -/
theorem colB_cell_eq_uid_iff (sheet : ReminderSystem.RegSheet) (uid : String)
    (subjectIdx : Nat) (r0 : ReminderSystem.RegRow)
    (hget : sheet.rows[subjectIdx]? = some r0) (hid : r0.userId = uid)
    (huniq : (sheet.rows.map (fun r => r.userId)).countP
      (fun s => s == uid) = 1) :
    ∀ i, 1 ≤ i →
      i < (ReminderSystem.col_values (fun r => r.userId) sheet).length →
      (((ReminderSystem.col_values (fun r => r.userId) sheet).getD i ""
        == uid) = true ↔ i = subjectIdx + 1) := by
  intro i h1 hi
  obtain ⟨r, hr, hcell⟩ :=
    col_values_getD_data (fun r => r.userId) sheet i h1 hi
  rw [hcell]
  constructor
  · intro hbe
    have hru : r.userId = uid := by simpa using hbe
    have hx : (sheet.rows.map (fun r => r.userId))[i - 1]? = some r.userId := by
      rw [List.getElem?_map, hr]; rfl
    have hy : (sheet.rows.map (fun r => r.userId))[subjectIdx]?
        = some r0.userId := by
      rw [List.getElem?_map, hget]; rfl
    have := countP_one_index_unique (fun s => s == uid) _ (i - 1) subjectIdx
      _ _ huniq hx hy (by simp [hru]) (by simp [hid])
    omega
  · intro hie
    subst hie
    simp only [Nat.add_sub_cancel] at hr
    rw [hget] at hr
    have hre : r0 = r := by injection hr
    rw [← hre, hid]
    simp

/-- `_mark_reminder_sent` on the subject writes exactly the subject's
row, provided the truncated column B covers it. -/
theorem mark_finds_subject (sheet : ReminderSystem.RegSheet) (uid : String)
    (subjectIdx : Nat) (r0 : ReminderSystem.RegRow)
    (hget : sheet.rows[subjectIdx]? = some r0) (hid : r0.userId = uid)
    (huniq : (sheet.rows.map (fun r => r.userId)).countP
      (fun s => s == uid) = 1)
    (hcovB : subjectIdx + 1
      < (ReminderSystem.col_values (fun r => r.userId) sheet).length) :
    ReminderSystem.mark_first_reminder_sent sheet uid
      = { sheet with rows := ReminderSystem.setSentAt sheet.rows subjectIdx } := by
  have hcell := colB_cell_eq_uid_iff sheet uid subjectIdx r0 hget hid huniq
  have hmem : subjectIdx + 1 ∈ List.range' 1
      ((ReminderSystem.col_values (fun r => r.userId) sheet).length - 1) :=
    List.mem_range'_1.mpr ⟨by omega, by omega⟩
  have hfind : (List.range' 1
      ((ReminderSystem.col_values (fun r => r.userId) sheet).length - 1)).find?
      (fun i => (ReminderSystem.col_values (fun r => r.userId) sheet).getD i ""
        == uid) = some (subjectIdx + 1) := by
    apply find?_eq_of_countP_one
    · rw [List.countP_congr]
      · show List.countP (fun i => i == subjectIdx + 1) _ = 1
        rw [← List.count_eq_countP]
        have hnd := List.nodup_range' 1
          ((ReminderSystem.col_values (fun r => r.userId) sheet).length - 1)
        have hle := List.nodup_iff_count_le_one.mp hnd (subjectIdx + 1)
        have hpos := List.count_pos_iff.mpr hmem
        omega
      · intro i hmem2
        rw [List.mem_range'_1] at hmem2
        have hiff := hcell i (by omega) (by omega)
        simp only [beq_iff_eq]
        simp only [beq_iff_eq] at hiff
        exact hiff
    · exact hmem
    · exact (hcell (subjectIdx + 1) (by omega) (by omega)).mpr rfl
  simp only [ReminderSystem.mark_first_reminder_sent, hfind,
    Nat.add_sub_cancel]

/-- Marking a different user's cell leaves the subject's row unchanged. -/
theorem mark_preserves_subject (sheet : ReminderSystem.RegSheet)
    (uid v : String) (subjectIdx : Nat) (r : ReminderSystem.RegRow)
    (hget : sheet.rows[subjectIdx]? = some r) (hid : r.userId = uid)
    (hvu : (v == uid) = false) :
    (ReminderSystem.mark_first_reminder_sent sheet v).rows[subjectIdx]?
      = some r := by
  simp only [ReminderSystem.mark_first_reminder_sent]
  cases hf : (List.range' 1
      ((ReminderSystem.col_values (fun x => x.userId) sheet).length - 1)).find?
      (fun i => (ReminderSystem.col_values (fun x => x.userId) sheet).getD i ""
        == v) with
  | none => simpa using hget
  | some k =>
    have hkmem := List.mem_of_find?_eq_some hf
    have hkp := List.find?_some hf
    rw [List.mem_range'_1] at hkmem
    obtain ⟨rv, hrv, hcv⟩ := col_values_getD_data (fun x => x.userId) sheet k
      (by omega) (by omega)
    rw [hcv] at hkp
    have hrvv : rv.userId = v := by simpa using hkp
    have hne : subjectIdx ≠ k - 1 := by
      intro he
      rw [← he, hget] at hrv
      have hre : r = rv := by injection hrv
      have : v = uid := by rw [← hrvv, ← hre, hid]
      rw [this] at hvu
      simp at hvu
    simp only [setSentAt_getElem?, hne, if_false]
    exact hget

/-- The dispatch loop never touches the header row. -/
theorem foldl_send_headers (users : List ReminderSystem.ReminderTarget)
    (sheet : ReminderSystem.RegSheet) :
    (users.foldl
      (fun s u => ReminderSystem.send_pre_course_reminder s u.user_id)
      sheet).headers = sheet.headers := by
  induction users generalizing sheet with
  | nil => rfl
  | cons u rest ih =>
    rw [List.foldl_cons, ih]
    exact mark_headers sheet u.user_id

/-- The dispatch loop preserves every column other than
FIRST_REMINDER_SENT. -/
theorem foldl_send_rows_map (f : ReminderSystem.RegRow → String)
    (hf : ∀ r, f { r with firstReminderSent := "SENT" } = f r)
    (users : List ReminderSystem.ReminderTarget)
    (sheet : ReminderSystem.RegSheet) :
    (users.foldl
      (fun s u => ReminderSystem.send_pre_course_reminder s u.user_id)
      sheet).rows.map f = sheet.rows.map f := by
  induction users generalizing sheet with
  | nil => rfl
  | cons u rest ih =>
    rw [List.foldl_cons, ih]
    exact mark_rows_map f hf sheet u.user_id

/-- The dispatch loop preserves the truncated reads of the columns it
does not write. -/
theorem foldl_send_col_values (f : ReminderSystem.RegRow → String)
    (hf : ∀ r, f { r with firstReminderSent := "SENT" } = f r)
    (users : List ReminderSystem.ReminderTarget)
    (sheet : ReminderSystem.RegSheet) :
    ReminderSystem.col_values f
      (users.foldl
        (fun s u => ReminderSystem.send_pre_course_reminder s u.user_id)
        sheet)
      = ReminderSystem.col_values f sheet := by
  unfold ReminderSystem.col_values
  rw [foldl_send_headers, foldl_send_rows_map f hf]

/-- After the dispatch loop, the subject's row is marked exactly when the
subject appears in the dispatched list. -/
theorem foldl_mark_getElem (uid : String) (subjectIdx : Nat) :
    ∀ (users : List ReminderSystem.ReminderTarget)
      (sheet : ReminderSystem.RegSheet) (r : ReminderSystem.RegRow),
      sheet.rows[subjectIdx]? = some r → r.userId = uid →
      (sheet.rows.map (fun x => x.userId)).countP (fun s => s == uid) = 1 →
      subjectIdx + 1
        < (ReminderSystem.col_values (fun x => x.userId) sheet).length →
      (users.foldl
        (fun t u => ReminderSystem.send_pre_course_reminder t u.user_id)
        sheet).rows[subjectIdx]?
        = if users.any (fun u => u.user_id == uid) then
            some { r with firstReminderSent := "SENT" }
          else some r := by
  intro users
  induction users with
  | nil => intro sheet r hget _ _ _; simpa using hget
  | cons u rest ih =>
    intro sheet r hget hid huniq hcov
    rw [List.foldl_cons]
    by_cases hu : (u.user_id == uid) = true
    · have hueq : u.user_id = uid := by simpa using hu
      have hmark : ReminderSystem.send_pre_course_reminder sheet u.user_id
          = { sheet with
              rows := ReminderSystem.setSentAt sheet.rows subjectIdx } := by
        rw [hueq]
        exact mark_finds_subject sheet uid subjectIdx r hget hid huniq hcov
      have hget2 : (ReminderSystem.send_pre_course_reminder sheet
          u.user_id).rows[subjectIdx]?
          = some { r with firstReminderSent := "SENT" } := by
        rw [hmark]
        simp [setSentAt_getElem?, hget]
      have huniq2 : ((ReminderSystem.send_pre_course_reminder sheet
          u.user_id).rows.map (fun x => x.userId)).countP
          (fun s => s == uid) = 1 := by
        show ((ReminderSystem.mark_first_reminder_sent sheet
          u.user_id).rows.map (fun x => x.userId)).countP
          (fun s => s == uid) = 1
        rw [mark_rows_map (fun x => x.userId) (fun _ => rfl)]
        exact huniq
      have hcov2 : subjectIdx + 1
          < (ReminderSystem.col_values (fun x => x.userId)
            (ReminderSystem.send_pre_course_reminder sheet
              u.user_id)).length := by
        show subjectIdx + 1
          < (ReminderSystem.col_values (fun x => x.userId)
            (ReminderSystem.mark_first_reminder_sent sheet u.user_id)).length
        rw [mark_col_values (fun x => x.userId) (fun _ => rfl)]
        exact hcov
      have hrec := ih (ReminderSystem.send_pre_course_reminder sheet u.user_id)
        { r with firstReminderSent := "SENT" } hget2 hid huniq2 hcov2
      rw [hrec]
      by_cases hrest : rest.any (fun x => x.user_id == uid) = true
      · simp [hrest, hu, List.any_cons]
      · simp [hrest, hu, List.any_cons]
    · have hpres : (ReminderSystem.send_pre_course_reminder sheet
          u.user_id).rows[subjectIdx]? = some r :=
        mark_preserves_subject sheet uid u.user_id subjectIdx r hget hid
          (by simpa using hu)
      have huniq2 : ((ReminderSystem.send_pre_course_reminder sheet
          u.user_id).rows.map (fun x => x.userId)).countP
          (fun s => s == uid) = 1 := by
        show ((ReminderSystem.mark_first_reminder_sent sheet
          u.user_id).rows.map (fun x => x.userId)).countP
          (fun s => s == uid) = 1
        rw [mark_rows_map (fun x => x.userId) (fun _ => rfl)]
        exact huniq
      have hcov2 : subjectIdx + 1
          < (ReminderSystem.col_values (fun x => x.userId)
            (ReminderSystem.send_pre_course_reminder sheet
              u.user_id)).length := by
        show subjectIdx + 1
          < (ReminderSystem.col_values (fun x => x.userId)
            (ReminderSystem.mark_first_reminder_sent sheet u.user_id)).length
        rw [mark_col_values (fun x => x.userId) (fun _ => rfl)]
        exact hcov
      have hrec := ih (ReminderSystem.send_pre_course_reminder sheet u.user_id)
        r hpres hid huniq2 hcov2
      rw [hrec]
      simp [List.any_cons, hu]

/-- The subject's cell of any truncated column that covers its index is
the subject row's field. -/
theorem col_values_getD_subject (f : ReminderSystem.RegRow → String)
    (sheet : ReminderSystem.RegSheet) (subjectIdx : Nat)
    (r0 : ReminderSystem.RegRow)
    (hget : sheet.rows[subjectIdx]? = some r0)
    (hcov : subjectIdx + 1 < (ReminderSystem.col_values f sheet).length) :
    (ReminderSystem.col_values f sheet).getD (subjectIdx + 1) "" = f r0 := by
  obtain ⟨r, hr, hc⟩ :=
    col_values_getD_data f sheet (subjectIdx + 1) (by omega) hcov
  simp only [Nat.add_sub_cancel] at hr
  rw [hget] at hr
  have hre : r0 = r := by injection hr
  rw [hc, ← hre]

/-- An emitted reminder target carries the id cell at its scan index. -/
theorem scan_row_user_id (sheet : ReminderSystem.RegSheet)
    (workers : ReminderSystem.WorkersTable) (targetDate : String) (i : Nat)
    (t : ReminderSystem.ReminderTarget)
    (h : ReminderSystem.scan_row sheet workers targetDate i = some t) :
    t.user_id
      = (ReminderSystem.col_values (fun r => r.userId) sheet).getD i "" := by
  simp only [ReminderSystem.scan_row] at h
  split at h
  · split at h
    · have he := Option.some.inj h
      rw [← he]
    · exact absurd h (by simp)
  · exact absurd h (by simp)

/-- At the subject's index, a scan whose five truncated columns all cover
that index emits the subject. -/
theorem scan_row_at_subject (sheet : ReminderSystem.RegSheet)
    (workers : ReminderSystem.WorkersTable) (targetDate uid : String)
    (subjectIdx : Nat) (r0 : ReminderSystem.RegRow)
    (hget : sheet.rows[subjectIdx]? = some r0)
    (hid : r0.userId = uid)
    (hdue : r0.preCourseReminder = targetDate)
    (hunsent : r0.firstReminderSent = "")
    (hstat1 : ReminderSystem.user_status_map_get workers uid
      ≠ some "REJECTED")
    (hstat2 : ReminderSystem.user_status_map_get workers uid
      ≠ some "CANCELLED")
    (hcovB : subjectIdx + 1
      < (ReminderSystem.col_values (fun r => r.userId) sheet).length)
    (hcovS : subjectIdx + 1
      < (ReminderSystem.col_values (fun r => r.preCourseReminder) sheet).length)
    (hcovU : subjectIdx + 1
      < (ReminderSystem.col_values (fun r => r.firstReminderSent) sheet).length)
    (hcovR : subjectIdx + 1
      < (ReminderSystem.col_values (fun r => r.courseDate) sheet).length)
    (hcovA : subjectIdx + 1
      < (ReminderSystem.col_values (fun r => r.language) sheet).length) :
    ReminderSystem.scan_row sheet workers targetDate (subjectIdx + 1)
      = some ⟨uid, r0.courseDate,
          if r0.language == "" then "gr" else r0.language⟩ := by
  have hB := col_values_getD_subject (fun r => r.userId) sheet subjectIdx r0
    hget hcovB
  have hS := col_values_getD_subject (fun r => r.preCourseReminder) sheet
    subjectIdx r0 hget hcovS
  have hU := col_values_getD_subject (fun r => r.firstReminderSent) sheet
    subjectIdx r0 hget hcovU
  have hR := col_values_getD_subject (fun r => r.courseDate) sheet
    subjectIdx r0 hget hcovR
  have hA := col_values_getD_subject (fun r => r.language) sheet
    subjectIdx r0 hget hcovA
  simp only at hB hS hU hR hA
  simp only [ReminderSystem.scan_row]
  rw [if_pos ⟨hcovS, hcovU, hcovR, hcovA⟩, hB, hS, hU, hR, hA, hid, hdue,
    hunsent]
  rw [if_pos ⟨by simp, by simp, hstat1, hstat2⟩]

/-- At an index whose data row has FIRST_REMINDER_SENT equal to `SENT`,
the scan emits nothing. -/
theorem scan_row_sent_none (sheet : ReminderSystem.RegSheet)
    (workers : ReminderSystem.WorkersTable) (targetDate : String)
    (subjectIdx : Nat) (r1 : ReminderSystem.RegRow)
    (hget : sheet.rows[subjectIdx]? = some r1)
    (hsent : r1.firstReminderSent = "SENT") :
    ReminderSystem.scan_row sheet workers targetDate (subjectIdx + 1)
      = none := by
  simp only [ReminderSystem.scan_row]
  by_cases hg : subjectIdx + 1
      < (ReminderSystem.col_values (fun r => r.preCourseReminder) sheet).length
      ∧ subjectIdx + 1
      < (ReminderSystem.col_values (fun r => r.firstReminderSent) sheet).length
      ∧ subjectIdx + 1
      < (ReminderSystem.col_values (fun r => r.courseDate) sheet).length
      ∧ subjectIdx + 1
      < (ReminderSystem.col_values (fun r => r.language) sheet).length
  · rw [if_pos hg]
    have hU := col_values_getD_subject (fun r => r.firstReminderSent) sheet
      subjectIdx r1 hget hg.2.1
    simp only at hU
    rw [if_neg]
    intro hcond
    have hfirst := hcond.2.1
    rw [hU, hsent] at hfirst
    simp at hfirst
  · rw [if_neg hg]

/-- Claim C2 as amended: the scan-then-mark dispatch is idempotent only for
subjects whose row index is covered by all five truncated column reads —
i.e. at or above the last non-empty cell of each of the columns B, S, U, R
and A (for column U this means some row at or below the subject already has
a FIRST_REMINDER_SENT value).  For such a due, unsent, unblocked subject
with a unique id cell, one pre-day scan messages the subject exactly once
and writes `SENT` into the subject row's FIRST_REMINDER_SENT cell, and a
second scan on the resulting sheet messages that subject zero further
times.  Outside this coverage condition the claim fails: see the
counterexample, where a due subject below the truncated end of column U is
skipped entirely. -/
theorem C2_pre_day_scan_idempotent_within_reads
    (sheet : ReminderSystem.RegSheet)
    (workers : ReminderSystem.WorkersTable)
    (targetDate uid : String) (subjectIdx : Nat)
    (r0 : ReminderSystem.RegRow)
    (hget : sheet.rows[subjectIdx]? = some r0)
    (hid : r0.userId = uid)
    (huniq : (sheet.rows.map (fun r => r.userId)).countP
      (fun s => s == uid) = 1)
    (hdue : r0.preCourseReminder = targetDate)
    (hunsent : r0.firstReminderSent = "")
    (hstat1 : ReminderSystem.user_status_map_get workers uid
      ≠ some "REJECTED")
    (hstat2 : ReminderSystem.user_status_map_get workers uid
      ≠ some "CANCELLED")
    (hcovB : subjectIdx + 1
      < (ReminderSystem.col_values (fun r => r.userId) sheet).length)
    (hcovS : subjectIdx + 1
      < (ReminderSystem.col_values (fun r => r.preCourseReminder) sheet).length)
    (hcovU : subjectIdx + 1
      < (ReminderSystem.col_values (fun r => r.firstReminderSent) sheet).length)
    (hcovR : subjectIdx + 1
      < (ReminderSystem.col_values (fun r => r.courseDate) sheet).length)
    (hcovA : subjectIdx + 1
      < (ReminderSystem.col_values (fun r => r.language) sheet).length) :
    ((ReminderSystem.run_pre_day_scan sheet workers targetDate).1.count uid
      = 1)
    ∧ ((ReminderSystem.run_pre_day_scan sheet workers
        targetDate).2.rows[subjectIdx]?
      = some { r0 with firstReminderSent := "SENT" })
    ∧ ((ReminderSystem.run_pre_day_scan
        (ReminderSystem.run_pre_day_scan sheet workers targetDate).2 workers
        targetDate).1.count uid = 0) := by
  have hsub := scan_row_at_subject sheet workers targetDate uid subjectIdx r0
    hget hid hdue hunsent hstat1 hstat2 hcovB hcovS hcovU hcovR hcovA
  have hcell := colB_cell_eq_uid_iff sheet uid subjectIdx r0 hget hid huniq
  have hmem : subjectIdx + 1 ∈ List.range' 1
      ((ReminderSystem.col_values (fun r => r.userId) sheet).length - 1) :=
    List.mem_range'_1.mpr ⟨by omega, by omega⟩
  have hA : (ReminderSystem.run_pre_day_scan sheet workers targetDate).1.count
      uid = 1 := by
    show (((ReminderSystem.get_users_for_reminder sheet workers
      targetDate).map (fun u => u.user_id)).count uid) = 1
    rw [List.count_eq_countP, List.countP_map,
      ReminderSystem.get_users_for_reminder, List.countP_filterMap]
    rw [List.countP_congr]
    · show List.countP (fun i => i == subjectIdx + 1) _ = 1
      rw [← List.count_eq_countP]
      have hnd := List.nodup_range' 1
        ((ReminderSystem.col_values (fun r => r.userId) sheet).length - 1)
      have hle := List.nodup_iff_count_le_one.mp hnd (subjectIdx + 1)
      have hpos := List.count_pos_iff.mpr hmem
      omega
    · intro i hmem2
      rw [List.mem_range'_1] at hmem2
      by_cases hie : i = subjectIdx + 1
      · subst hie
        rw [hsub]
        simp
      · cases hs : ReminderSystem.scan_row sheet workers targetDate i with
        | none => simp [hs, hie]
        | some t =>
          have ht := scan_row_user_id sheet workers targetDate i t hs
          have htf : (t.user_id == uid) = false := by
            by_contra hbe
            have hbe2 : (t.user_id == uid) = true := by
              cases hb2 : (t.user_id == uid) with
              | false => exact absurd hb2 hbe
              | true => rfl
            rw [ht] at hbe2
            exact hie ((hcell i (by omega) (by omega)).mp hbe2)
          simp [hs, htf, hie]
  have hB : (ReminderSystem.run_pre_day_scan sheet workers
      targetDate).2.rows[subjectIdx]?
      = some { r0 with firstReminderSent := "SENT" } := by
    show ((ReminderSystem.get_users_for_reminder sheet workers
      targetDate).foldl
      (fun s u => ReminderSystem.send_pre_course_reminder s u.user_id)
      sheet).rows[subjectIdx]?
      = some { r0 with firstReminderSent := "SENT" }
    rw [foldl_mark_getElem uid subjectIdx _ sheet r0 hget hid huniq hcovB]
    have hany : (ReminderSystem.get_users_for_reminder sheet workers
        targetDate).any (fun u => u.user_id == uid) = true := by
      rw [List.any_eq_true]
      refine ⟨⟨uid, r0.courseDate,
        if r0.language == "" then "gr" else r0.language⟩, ?_, by simp⟩
      exact List.mem_filterMap.mpr ⟨subjectIdx + 1, hmem, hsub⟩
    rw [if_pos hany]
  refine ⟨hA, hB, ?_⟩
  have hrows1 : (ReminderSystem.run_pre_day_scan sheet workers
      targetDate).2.rows.map (fun r => r.userId)
      = sheet.rows.map (fun r => r.userId) := by
    show ((ReminderSystem.get_users_for_reminder sheet workers
      targetDate).foldl
      (fun s u => ReminderSystem.send_pre_course_reminder s u.user_id)
      sheet).rows.map (fun r => r.userId) = _
    exact foldl_send_rows_map (fun r => r.userId) (fun _ => rfl) _ sheet
  have hcolB1 : ReminderSystem.col_values (fun r => r.userId)
      (ReminderSystem.run_pre_day_scan sheet workers targetDate).2
      = ReminderSystem.col_values (fun r => r.userId) sheet := by
    show ReminderSystem.col_values (fun r => r.userId)
      ((ReminderSystem.get_users_for_reminder sheet workers targetDate).foldl
        (fun s u => ReminderSystem.send_pre_course_reminder s u.user_id)
        sheet) = _
    exact foldl_send_col_values (fun r => r.userId) (fun _ => rfl) _ sheet
  have huniq1 : ((ReminderSystem.run_pre_day_scan sheet workers
      targetDate).2.rows.map (fun r => r.userId)).countP
      (fun s => s == uid) = 1 := by
    rw [hrows1]; exact huniq
  have hid1 : ({ r0 with firstReminderSent := "SENT" }
      : ReminderSystem.RegRow).userId = uid := hid
  have hcell1 := colB_cell_eq_uid_iff
    (ReminderSystem.run_pre_day_scan sheet workers targetDate).2 uid
    subjectIdx { r0 with firstReminderSent := "SENT" } hB hid1 huniq1
  show (((ReminderSystem.get_users_for_reminder
    (ReminderSystem.run_pre_day_scan sheet workers targetDate).2 workers
    targetDate).map (fun u => u.user_id)).count uid) = 0
  rw [List.count_eq_countP, List.countP_map,
    ReminderSystem.get_users_for_reminder, List.countP_filterMap,
    List.countP_eq_zero]
  intro i hmem2
  rw [hcolB1] at hmem2
  rw [List.mem_range'_1] at hmem2
  cases hs : ReminderSystem.scan_row
      (ReminderSystem.run_pre_day_scan sheet workers targetDate).2 workers
      targetDate i with
  | none => simp [hs]
  | some t =>
    have ht := scan_row_user_id _ workers targetDate i t hs
    by_cases hbe : (t.user_id == uid) = true
    · rw [ht, hcolB1] at hbe
      have hie : i = subjectIdx + 1 := by
        refine (hcell i (by omega) (by omega)).mp ?_
        exact hbe
      subst hie
      have hnone := scan_row_sent_none
        (ReminderSystem.run_pre_day_scan sheet workers targetDate).2 workers
        targetDate subjectIdx { r0 with firstReminderSent := "SENT" } hB rfl
      rw [hnone] at hs
      exact absurd hs (by simp)
    · have htf : (t.user_id == uid) = false := by
        cases hb2 : (t.user_id == uid) with
        | false => rfl
        | true => exact absurd hb2 hbe
      simp [hs, htf]

/-- Counterexample to claim C2 as stated: a fresh sheet whose single data
row is due today (`PRE_COURSE_REMINDER = 2026-10-12`), unsent
(FIRST_REMINDER_SENT empty) and whose worker status `COURSE_DATE_SET` is
not blocking.  gspread's `col_values(21)` truncates column U — empty below
its header — to the header alone, so the guard `i < len(column)` of line
358 fails at the subject's index and the scan returns no users: the run
messages nobody and marks nothing, contradicting 'sends exactly one
pre-course reminder and marks first_reminder_sent'. -/
theorem C2_fresh_sheet_due_subject_skipped :
    (ReminderSystem.user_status_map_get
      { headers := ⟨"ID", "STATUS"⟩,
        rows := [⟨"7", "COURSE_DATE_SET"⟩] } "7"
      = some "COURSE_DATE_SET")
    ∧ (ReminderSystem.run_pre_day_scan
        { headers := ⟨"LANGUAGE", "USER ID", "COURSE_DATE",
            "PRE_COURSE_REMINDER", "FIRST_REMINDER_SENT"⟩,
          rows := [⟨"en", "7", "2026-10-13", "2026-10-12", ""⟩] }
        { headers := ⟨"ID", "STATUS"⟩,
          rows := [⟨"7", "COURSE_DATE_SET"⟩] }
        "2026-10-12"
      = ([],
        { headers := ⟨"LANGUAGE", "USER ID", "COURSE_DATE",
            "PRE_COURSE_REMINDER", "FIRST_REMINDER_SENT"⟩,
          rows := [⟨"en", "7", "2026-10-13", "2026-10-12", ""⟩] })) := by
  decide

/-- Claim C2 as amended: the scan-then-mark dispatch is idempotent only for
subjects whose row index is covered by all five truncated column reads —
i.e. at or above the last non-empty cell of each of the columns B, S, U, R
and A (for column U this means some row at or below the subject already has
a FIRST_REMINDER_SENT value).  For such a due, unsent, unblocked subject
with a unique id cell, one pre-day scan messages the subject exactly once
and writes `SENT` into the subject row's FIRST_REMINDER_SENT cell, and a
second scan on the resulting sheet messages that subject zero further
times.  Outside this coverage condition the claim fails: see the
counterexample, where a due subject below the truncated end of column U is
skipped entirely. -/
theorem C2_pre_day_scan_idempotent_within_reads_witness :
    ((ReminderSystem.run_pre_day_scan
      { headers := ⟨"LANGUAGE", "USER ID", "COURSE_DATE",
          "PRE_COURSE_REMINDER", "FIRST_REMINDER_SENT"⟩,
        rows := [⟨"en", "7", "2026-10-13", "2026-10-12", ""⟩,
          ⟨"gr", "8", "", "", "SENT"⟩] }
      { headers := ⟨"ID", "STATUS"⟩, rows := [⟨"7", "COURSE_DATE_SET"⟩] }
      "2026-10-12").1.count "7" = 1)
    ∧ ((ReminderSystem.run_pre_day_scan
      { headers := ⟨"LANGUAGE", "USER ID", "COURSE_DATE",
          "PRE_COURSE_REMINDER", "FIRST_REMINDER_SENT"⟩,
        rows := [⟨"en", "7", "2026-10-13", "2026-10-12", ""⟩,
          ⟨"gr", "8", "", "", "SENT"⟩] }
      { headers := ⟨"ID", "STATUS"⟩, rows := [⟨"7", "COURSE_DATE_SET"⟩] }
      "2026-10-12").2.rows[0]?
      = some ⟨"en", "7", "2026-10-13", "2026-10-12", "SENT"⟩)
    ∧ ((ReminderSystem.run_pre_day_scan
      (ReminderSystem.run_pre_day_scan
        { headers := ⟨"LANGUAGE", "USER ID", "COURSE_DATE",
            "PRE_COURSE_REMINDER", "FIRST_REMINDER_SENT"⟩,
          rows := [⟨"en", "7", "2026-10-13", "2026-10-12", ""⟩,
            ⟨"gr", "8", "", "", "SENT"⟩] }
        { headers := ⟨"ID", "STATUS"⟩, rows := [⟨"7", "COURSE_DATE_SET"⟩] }
        "2026-10-12").2
      { headers := ⟨"ID", "STATUS"⟩, rows := [⟨"7", "COURSE_DATE_SET"⟩] }
      "2026-10-12").1.count "7" = 0) :=
  C2_pre_day_scan_idempotent_within_reads
    { headers := ⟨"LANGUAGE", "USER ID", "COURSE_DATE",
        "PRE_COURSE_REMINDER", "FIRST_REMINDER_SENT"⟩,
      rows := [⟨"en", "7", "2026-10-13", "2026-10-12", ""⟩,
        ⟨"gr", "8", "", "", "SENT"⟩] }
    { headers := ⟨"ID", "STATUS"⟩, rows := [⟨"7", "COURSE_DATE_SET"⟩] }
    "2026-10-12" "7" 0 ⟨"en", "7", "2026-10-13", "2026-10-12", ""⟩
    (by decide) (by decide) (by decide) (by decide) (by decide) (by decide)
    (by decide) (by decide) (by decide) (by decide) (by decide) (by decide)
